import Mathlib

/-!
Verification of the SentinentalBERT ingestion connector layer.

This file gives a shallow embedding, in Lean, of the connector governance code
under services/ingestion/src (rate limiting, OAuth2 token lifecycle, HTTP
status dispatch, payload normalization and URL construction for the Twitter,
Reddit, Instagram and Telegram connectors), and proves or refutes the
specified properties of that code.

Timestamps are modelled as integers (milliseconds for the rate limiters,
seconds for token expiry and post timestamps, matching the units each piece
of Rust code computes with via chrono Durations).  Library functions of the
Rust ecosystem that the code calls (serde deserialization, chrono RFC 3339
parsing and formatting) are modelled as explicit function parameters, so all
theorems hold for every possible behaviour of those library functions.
-/

/- ======================================================================
   Reddit proactive rate limiter
   (services/ingestion/src/api_connectors/reddit.rs, RateLimitState and
   RedditConnector::wait_for_rate_limit, lines 86-116 and 335-397).
   Times are integer milliseconds.
   ====================================================================== -/

/-- Mirror of reddit.rs `RateLimitState`: two counting windows (per minute and
per hour) plus the timestamp of the last request that was allowed through. -/
structure RedditRateState where
  requestsThisMinute : Nat
  requestsThisHour : Nat
  minuteWindowStart : Int
  hourWindowStart : Int
  lastRequest : Option Int
deriving DecidableEq, Repr

/-- Mirror of `RateLimitState::default()`: both counters zero, both windows
starting at construction time, no last request. -/
def initialRedditRateState (now : Int) : RedditRateState :=
  ⟨0, 0, now, now, none⟩

/-- What one call of reddit.rs `wait_for_rate_limit` does: either it allows the
request through (incrementing both counters), or it sleeps for the given
duration and returns without incrementing, or the `to_std()` conversion of a
negative duration fails and the call returns `ConnectorError::Generic`. -/
inductive RedditRateAction where
  | proceed
  | waitMinuteReset (d : Int)
  | waitHourReset (d : Int)
  | waitSpacing (d : Int)
  | invalidDuration
deriving DecidableEq, Repr

/-- Mirror of reddit.rs lines 339-349: reset the minute window if at least one
minute has elapsed since its start, then reset the hour window if at least one
hour has elapsed since its start. -/
def redditRollover (st : RedditRateState) (now : Int) : RedditRateState :=
  let st1 :=
    if 60000 ≤ now - st.minuteWindowStart then
      { st with requestsThisMinute := 0, minuteWindowStart := now }
    else st
  if 3600000 ≤ now - st1.hourWindowStart then
    { st1 with requestsThisHour := 0, hourWindowStart := now }
  else st1

/-- Time until the minute window of `st` rolls over, seen from `now`. -/
def redditPendingMinute (st : RedditRateState) (now : Int) : Int :=
  st.minuteWindowStart + 60000 - now

/-- Time until the hour window of `st` rolls over, seen from `now`. -/
def redditPendingHour (st : RedditRateState) (now : Int) : Int :=
  st.hourWindowStart + 3600000 - now

/-- Mirror of reddit.rs `RedditConnector::wait_for_rate_limit` (lines 335-397):
roll both windows over if due; if the minute counter has reached 100, sleep
until the minute window rolls over and return without incrementing; else if
the hour counter has reached 1000, sleep until the hour window rolls over and
return without incrementing; else if less than 600 ms have elapsed since the
last allowed request, sleep for the remainder of the 600 ms and return without
incrementing; otherwise increment both counters, record `last_request := now`
and let the request proceed. -/
def reddit_wait_for_rate_limit (st : RedditRateState) (now : Int) :
    RedditRateState × RedditRateAction :=
  let r := redditRollover st now
  if 100 ≤ r.requestsThisMinute then
    let d := redditPendingMinute r now
    if d < 0 then (r, .invalidDuration) else (r, .waitMinuteReset d)
  else if 1000 ≤ r.requestsThisHour then
    let d := redditPendingHour r now
    if d < 0 then (r, .invalidDuration) else (r, .waitHourReset d)
  else
    match r.lastRequest with
    | some last =>
      if now - last < 600 then
        if 0 ≤ 600 - (now - last) then
          (r, .waitSpacing (600 - (now - last)))
        else
          ({ r with requestsThisMinute := r.requestsThisMinute + 1,
                    requestsThisHour := r.requestsThisHour + 1,
                    lastRequest := some now }, .proceed)
      else
        ({ r with requestsThisMinute := r.requestsThisMinute + 1,
                  requestsThisHour := r.requestsThisHour + 1,
                  lastRequest := some now }, .proceed)
    | none =>
      ({ r with requestsThisMinute := r.requestsThisMinute + 1,
                requestsThisHour := r.requestsThisHour + 1,
                lastRequest := some now }, .proceed)

/-- Run the limiter over a sequence of call times, returning the final state. -/
def redditRateRun (st : RedditRateState) : List Int → RedditRateState
  | [] => st
  | t :: ts => redditRateRun (reddit_wait_for_rate_limit st t).1 ts

/-- The times, within a sequence of calls, at which a call completed without
waiting (the limiter let the request proceed at once). -/
def redditCompletions (st : RedditRateState) : List Int → List Int
  | [] => []
  | t :: ts =>
    match reddit_wait_for_rate_limit st t with
    | (st2, .proceed) => t :: redditCompletions st2 ts
    | (st2, _) => redditCompletions st2 ts

/-- Number of listed times falling in the half-open window `[a, a + w)`. -/
def countInWindow (a w : Int) : List Int → Nat
  | [] => 0
  | t :: ts => (if a ≤ t ∧ t < a + w then 1 else 0) + countInWindow a w ts

/-- Checks that a list of call times is non-decreasing, starting from `t0`. -/
def monoFrom : Int → List Int → Bool
  | _, [] => true
  | t0, t :: ts => decide (t0 ≤ t) && monoFrom t ts

/-- The gap discipline the limiter maintains on completion times: when
`last = some l`, the next completion is at least 600 ms after `l`, and
each completion is at least 600 ms after the one before it. -/
def SpacedFrom : Option Int → List Int → Prop
  | _, [] => True
  | last, t :: ts => (∀ l, last = some l → l + 600 ≤ t) ∧ SpacedFrom (some t) ts

def c1Seg0 : List Int := [0, 3000600, 3001200, 3001800, 3002400, 3003000, 3003600, 3004200, 3004800, 3005400, 3006000, 3006600, 3007200, 3007800, 3008400, 3009000, 3009600, 3010200, 3010800, 3011400, 3012000, 3012600, 3013200, 3013800, 3014400]

def c1Seg1 : List Int := [3015000, 3015600, 3016200, 3016800, 3017400, 3018000, 3018600, 3019200, 3019800, 3020400, 3021000, 3021600, 3022200, 3022800, 3023400, 3024000, 3024600, 3025200, 3025800, 3026400, 3027000, 3027600, 3028200, 3028800, 3029400]

def c1Seg2 : List Int := [3030000, 3030600, 3031200, 3031800, 3032400, 3033000, 3033600, 3034200, 3034800, 3035400, 3036000, 3036600, 3037200, 3037800, 3038400, 3039000, 3039600, 3040200, 3040800, 3041400, 3042000, 3042600, 3043200, 3043800, 3044400]

def c1Seg3 : List Int := [3045000, 3045600, 3046200, 3046800, 3047400, 3048000, 3048600, 3049200, 3049800, 3050400, 3051000, 3051600, 3052200, 3052800, 3053400, 3054000, 3054600, 3055200, 3055800, 3056400, 3057000, 3057600, 3058200, 3058800, 3059400]

def c1Seg4 : List Int := [3060000, 3060600, 3061200, 3061800, 3062400, 3063000, 3063600, 3064200, 3064800, 3065400, 3066000, 3066600, 3067200, 3067800, 3068400, 3069000, 3069600, 3070200, 3070800, 3071400, 3072000, 3072600, 3073200, 3073800, 3074400]

def c1Seg5 : List Int := [3075000, 3075600, 3076200, 3076800, 3077400, 3078000, 3078600, 3079200, 3079800, 3080400, 3081000, 3081600, 3082200, 3082800, 3083400, 3084000, 3084600, 3085200, 3085800, 3086400, 3087000, 3087600, 3088200, 3088800, 3089400]

def c1Seg6 : List Int := [3090000, 3090600, 3091200, 3091800, 3092400, 3093000, 3093600, 3094200, 3094800, 3095400, 3096000, 3096600, 3097200, 3097800, 3098400, 3099000, 3099600, 3100200, 3100800, 3101400, 3102000, 3102600, 3103200, 3103800, 3104400]

def c1Seg7 : List Int := [3105000, 3105600, 3106200, 3106800, 3107400, 3108000, 3108600, 3109200, 3109800, 3110400, 3111000, 3111600, 3112200, 3112800, 3113400, 3114000, 3114600, 3115200, 3115800, 3116400, 3117000, 3117600, 3118200, 3118800, 3119400]

def c1Seg8 : List Int := [3120000, 3120600, 3121200, 3121800, 3122400, 3123000, 3123600, 3124200, 3124800, 3125400, 3126000, 3126600, 3127200, 3127800, 3128400, 3129000, 3129600, 3130200, 3130800, 3131400, 3132000, 3132600, 3133200, 3133800, 3134400]

def c1Seg9 : List Int := [3135000, 3135600, 3136200, 3136800, 3137400, 3138000, 3138600, 3139200, 3139800, 3140400, 3141000, 3141600, 3142200, 3142800, 3143400, 3144000, 3144600, 3145200, 3145800, 3146400, 3147000, 3147600, 3148200, 3148800, 3149400]

def c1Seg10 : List Int := [3150000, 3150600, 3151200, 3151800, 3152400, 3153000, 3153600, 3154200, 3154800, 3155400, 3156000, 3156600, 3157200, 3157800, 3158400, 3159000, 3159600, 3160200, 3160800, 3161400, 3162000, 3162600, 3163200, 3163800, 3164400]

def c1Seg11 : List Int := [3165000, 3165600, 3166200, 3166800, 3167400, 3168000, 3168600, 3169200, 3169800, 3170400, 3171000, 3171600, 3172200, 3172800, 3173400, 3174000, 3174600, 3175200, 3175800, 3176400, 3177000, 3177600, 3178200, 3178800, 3179400]

def c1Seg12 : List Int := [3180000, 3180600, 3181200, 3181800, 3182400, 3183000, 3183600, 3184200, 3184800, 3185400, 3186000, 3186600, 3187200, 3187800, 3188400, 3189000, 3189600, 3190200, 3190800, 3191400, 3192000, 3192600, 3193200, 3193800, 3194400]

def c1Seg13 : List Int := [3195000, 3195600, 3196200, 3196800, 3197400, 3198000, 3198600, 3199200, 3199800, 3200400, 3201000, 3201600, 3202200, 3202800, 3203400, 3204000, 3204600, 3205200, 3205800, 3206400, 3207000, 3207600, 3208200, 3208800, 3209400]

def c1Seg14 : List Int := [3210000, 3210600, 3211200, 3211800, 3212400, 3213000, 3213600, 3214200, 3214800, 3215400, 3216000, 3216600, 3217200, 3217800, 3218400, 3219000, 3219600, 3220200, 3220800, 3221400, 3222000, 3222600, 3223200, 3223800, 3224400]

def c1Seg15 : List Int := [3225000, 3225600, 3226200, 3226800, 3227400, 3228000, 3228600, 3229200, 3229800, 3230400, 3231000, 3231600, 3232200, 3232800, 3233400, 3234000, 3234600, 3235200, 3235800, 3236400, 3237000, 3237600, 3238200, 3238800, 3239400]

def c1Seg16 : List Int := [3240000, 3240600, 3241200, 3241800, 3242400, 3243000, 3243600, 3244200, 3244800, 3245400, 3246000, 3246600, 3247200, 3247800, 3248400, 3249000, 3249600, 3250200, 3250800, 3251400, 3252000, 3252600, 3253200, 3253800, 3254400]

def c1Seg17 : List Int := [3255000, 3255600, 3256200, 3256800, 3257400, 3258000, 3258600, 3259200, 3259800, 3260400, 3261000, 3261600, 3262200, 3262800, 3263400, 3264000, 3264600, 3265200, 3265800, 3266400, 3267000, 3267600, 3268200, 3268800, 3269400]

def c1Seg18 : List Int := [3270000, 3270600, 3271200, 3271800, 3272400, 3273000, 3273600, 3274200, 3274800, 3275400, 3276000, 3276600, 3277200, 3277800, 3278400, 3279000, 3279600, 3280200, 3280800, 3281400, 3282000, 3282600, 3283200, 3283800, 3284400]

def c1Seg19 : List Int := [3285000, 3285600, 3286200, 3286800, 3287400, 3288000, 3288600, 3289200, 3289800, 3290400, 3291000, 3291600, 3292200, 3292800, 3293400, 3294000, 3294600, 3295200, 3295800, 3296400, 3297000, 3297600, 3298200, 3298800, 3299400]

def c1Seg20 : List Int := [3300000, 3300600, 3301200, 3301800, 3302400, 3303000, 3303600, 3304200, 3304800, 3305400, 3306000, 3306600, 3307200, 3307800, 3308400, 3309000, 3309600, 3310200, 3310800, 3311400, 3312000, 3312600, 3313200, 3313800, 3314400]

def c1Seg21 : List Int := [3315000, 3315600, 3316200, 3316800, 3317400, 3318000, 3318600, 3319200, 3319800, 3320400, 3321000, 3321600, 3322200, 3322800, 3323400, 3324000, 3324600, 3325200, 3325800, 3326400, 3327000, 3327600, 3328200, 3328800, 3329400]

def c1Seg22 : List Int := [3330000, 3330600, 3331200, 3331800, 3332400, 3333000, 3333600, 3334200, 3334800, 3335400, 3336000, 3336600, 3337200, 3337800, 3338400, 3339000, 3339600, 3340200, 3340800, 3341400, 3342000, 3342600, 3343200, 3343800, 3344400]

def c1Seg23 : List Int := [3345000, 3345600, 3346200, 3346800, 3347400, 3348000, 3348600, 3349200, 3349800, 3350400, 3351000, 3351600, 3352200, 3352800, 3353400, 3354000, 3354600, 3355200, 3355800, 3356400, 3357000, 3357600, 3358200, 3358800, 3359400]

def c1Seg24 : List Int := [3360000, 3360600, 3361200, 3361800, 3362400, 3363000, 3363600, 3364200, 3364800, 3365400, 3366000, 3366600, 3367200, 3367800, 3368400, 3369000, 3369600, 3370200, 3370800, 3371400, 3372000, 3372600, 3373200, 3373800, 3374400]

def c1Seg25 : List Int := [3375000, 3375600, 3376200, 3376800, 3377400, 3378000, 3378600, 3379200, 3379800, 3380400, 3381000, 3381600, 3382200, 3382800, 3383400, 3384000, 3384600, 3385200, 3385800, 3386400, 3387000, 3387600, 3388200, 3388800, 3389400]

def c1Seg26 : List Int := [3390000, 3390600, 3391200, 3391800, 3392400, 3393000, 3393600, 3394200, 3394800, 3395400, 3396000, 3396600, 3397200, 3397800, 3398400, 3399000, 3399600, 3400200, 3400800, 3401400, 3402000, 3402600, 3403200, 3403800, 3404400]

def c1Seg27 : List Int := [3405000, 3405600, 3406200, 3406800, 3407400, 3408000, 3408600, 3409200, 3409800, 3410400, 3411000, 3411600, 3412200, 3412800, 3413400, 3414000, 3414600, 3415200, 3415800, 3416400, 3417000, 3417600, 3418200, 3418800, 3419400]

def c1Seg28 : List Int := [3420000, 3420600, 3421200, 3421800, 3422400, 3423000, 3423600, 3424200, 3424800, 3425400, 3426000, 3426600, 3427200, 3427800, 3428400, 3429000, 3429600, 3430200, 3430800, 3431400, 3432000, 3432600, 3433200, 3433800, 3434400]

def c1Seg29 : List Int := [3435000, 3435600, 3436200, 3436800, 3437400, 3438000, 3438600, 3439200, 3439800, 3440400, 3441000, 3441600, 3442200, 3442800, 3443400, 3444000, 3444600, 3445200, 3445800, 3446400, 3447000, 3447600, 3448200, 3448800, 3449400]

def c1Seg30 : List Int := [3450000, 3450600, 3451200, 3451800, 3452400, 3453000, 3453600, 3454200, 3454800, 3455400, 3456000, 3456600, 3457200, 3457800, 3458400, 3459000, 3459600, 3460200, 3460800, 3461400, 3462000, 3462600, 3463200, 3463800, 3464400]

def c1Seg31 : List Int := [3465000, 3465600, 3466200, 3466800, 3467400, 3468000, 3468600, 3469200, 3469800, 3470400, 3471000, 3471600, 3472200, 3472800, 3473400, 3474000, 3474600, 3475200, 3475800, 3476400, 3477000, 3477600, 3478200, 3478800, 3479400]

def c1Seg32 : List Int := [3480000, 3480600, 3481200, 3481800, 3482400, 3483000, 3483600, 3484200, 3484800, 3485400, 3486000, 3486600, 3487200, 3487800, 3488400, 3489000, 3489600, 3490200, 3490800, 3491400, 3492000, 3492600, 3493200, 3493800, 3494400]

def c1Seg33 : List Int := [3495000, 3495600, 3496200, 3496800, 3497400, 3498000, 3498600, 3499200, 3499800, 3500400, 3501000, 3501600, 3502200, 3502800, 3503400, 3504000, 3504600, 3505200, 3505800, 3506400, 3507000, 3507600, 3508200, 3508800, 3509400]

def c1Seg34 : List Int := [3510000, 3510600, 3511200, 3511800, 3512400, 3513000, 3513600, 3514200, 3514800, 3515400, 3516000, 3516600, 3517200, 3517800, 3518400, 3519000, 3519600, 3520200, 3520800, 3521400, 3522000, 3522600, 3523200, 3523800, 3524400]

def c1Seg35 : List Int := [3525000, 3525600, 3526200, 3526800, 3527400, 3528000, 3528600, 3529200, 3529800, 3530400, 3531000, 3531600, 3532200, 3532800, 3533400, 3534000, 3534600, 3535200, 3535800, 3536400, 3537000, 3537600, 3538200, 3538800, 3539400]

def c1Seg36 : List Int := [3540000, 3540600, 3541200, 3541800, 3542400, 3543000, 3543600, 3544200, 3544800, 3545400, 3546000, 3546600, 3547200, 3547800, 3548400, 3549000, 3549600, 3550200, 3550800, 3551400, 3552000, 3552600, 3553200, 3553800, 3554400]

def c1Seg37 : List Int := [3555000, 3555600, 3556200, 3556800, 3557400, 3558000, 3558600, 3559200, 3559800, 3560400, 3561000, 3561600, 3562200, 3562800, 3563400, 3564000, 3564600, 3565200, 3565800, 3566400, 3567000, 3567600, 3568200, 3568800, 3569400]

def c1Seg38 : List Int := [3570000, 3570600, 3571200, 3571800, 3572400, 3573000, 3573600, 3574200, 3574800, 3575400, 3576000, 3576600, 3577200, 3577800, 3578400, 3579000, 3579600, 3580200, 3580800, 3581400, 3582000, 3582600, 3583200, 3583800, 3584400]

def c1Seg39 : List Int := [3585000, 3585600, 3586200, 3586800, 3587400, 3588000, 3588600, 3589200, 3589800, 3590400, 3591000, 3591600, 3592200, 3592800, 3593400, 3594000, 3594600, 3595200, 3595800, 3596400, 3597000, 3597600, 3598200, 3598800, 3599400]

def c1Seg40 : List Int := [3600000, 3600600]

/-- Call times (ms) driving more than 1000 no-wait completions into one rolling
hour: one call at time 0 starts the hour window; 999 calls packed 600 ms apart
into the last ten minutes of that window; then the hour window rolls over at
3600000 ms and two more calls complete immediately.  The sequence is split
into segments of 25 calls so that intermediate limiter states can be
certified one segment at a time. -/
def redditTraceC1 : List Int := c1Seg0 ++ (c1Seg1 ++ (c1Seg2 ++ (c1Seg3 ++ (c1Seg4 ++ (c1Seg5 ++ (c1Seg6 ++ (c1Seg7 ++ (c1Seg8 ++ (c1Seg9 ++ (c1Seg10 ++ (c1Seg11 ++ (c1Seg12 ++ (c1Seg13 ++ (c1Seg14 ++ (c1Seg15 ++ (c1Seg16 ++ (c1Seg17 ++ (c1Seg18 ++ (c1Seg19 ++ (c1Seg20 ++ (c1Seg21 ++ (c1Seg22 ++ (c1Seg23 ++ (c1Seg24 ++ (c1Seg25 ++ (c1Seg26 ++ (c1Seg27 ++ (c1Seg28 ++ (c1Seg29 ++ (c1Seg30 ++ (c1Seg31 ++ (c1Seg32 ++ (c1Seg33 ++ (c1Seg34 ++ (c1Seg35 ++ (c1Seg36 ++ (c1Seg37 ++ (c1Seg38 ++ (c1Seg39 ++ c1Seg40)))))))))))))))))))))))))))))))))))))))

def c2Seg0 : List Int := [0, 600, 1200, 1800, 2400, 3000, 3600, 4200, 4800, 5400, 6000, 6600, 7200, 7800, 8400, 9000, 9600, 10200, 10800, 11400, 12000, 12600, 13200, 13800, 14400]

def c2Seg1 : List Int := [15000, 15600, 16200, 16800, 17400, 18000, 18600, 19200, 19800, 20400, 21000, 21600, 22200, 22800, 23400, 24000, 24600, 25200, 25800, 26400, 27000, 27600, 28200, 28800, 29400]

def c2Seg2 : List Int := [30000, 30600, 31200, 31800, 32400, 33000, 33600, 34200, 34800, 35400, 36000, 36600, 37200, 37800, 38400, 39000, 39600, 40200, 40800, 41400, 42000, 42600, 43200, 43800, 44400]

def c2Seg3 : List Int := [45000, 45600, 46200, 46800, 47400, 48000, 48600, 49200, 49800, 50400, 51000, 51600, 52200, 52800, 53400, 54000, 54600, 55200, 55800, 56400, 57000, 57600, 58200, 58800, 59400]

def c2Seg4 : List Int := [60000, 60600, 61200, 61800, 62400, 63000, 63600, 64200, 64800, 65400, 66000, 66600, 67200, 67800, 68400, 69000, 69600, 70200, 70800, 71400, 72000, 72600, 73200, 73800, 74400]

def c2Seg5 : List Int := [75000, 75600, 76200, 76800, 77400, 78000, 78600, 79200, 79800, 80400, 81000, 81600, 82200, 82800, 83400, 84000, 84600, 85200, 85800, 86400, 87000, 87600, 88200, 88800, 89400]

def c2Seg6 : List Int := [90000, 90600, 91200, 91800, 92400, 93000, 93600, 94200, 94800, 95400, 96000, 96600, 97200, 97800, 98400, 99000, 99600, 100200, 100800, 101400, 102000, 102600, 103200, 103800, 104400]

def c2Seg7 : List Int := [105000, 105600, 106200, 106800, 107400, 108000, 108600, 109200, 109800, 110400, 111000, 111600, 112200, 112800, 113400, 114000, 114600, 115200, 115800, 116400, 117000, 117600, 118200, 118800, 119400]

def c2Seg8 : List Int := [120000, 120600, 121200, 121800, 122400, 123000, 123600, 124200, 124800, 125400, 126000, 126600, 127200, 127800, 128400, 129000, 129600, 130200, 130800, 131400, 132000, 132600, 133200, 133800, 134400]

def c2Seg9 : List Int := [135000, 135600, 136200, 136800, 137400, 138000, 138600, 139200, 139800, 140400, 141000, 141600, 142200, 142800, 143400, 144000, 144600, 145200, 145800, 146400, 147000, 147600, 148200, 148800, 149400]

def c2Seg10 : List Int := [150000, 150600, 151200, 151800, 152400, 153000, 153600, 154200, 154800, 155400, 156000, 156600, 157200, 157800, 158400, 159000, 159600, 160200, 160800, 161400, 162000, 162600, 163200, 163800, 164400]

def c2Seg11 : List Int := [165000, 165600, 166200, 166800, 167400, 168000, 168600, 169200, 169800, 170400, 171000, 171600, 172200, 172800, 173400, 174000, 174600, 175200, 175800, 176400, 177000, 177600, 178200, 178800, 179400]

def c2Seg12 : List Int := [180000, 180600, 181200, 181800, 182400, 183000, 183600, 184200, 184800, 185400, 186000, 186600, 187200, 187800, 188400, 189000, 189600, 190200, 190800, 191400, 192000, 192600, 193200, 193800, 194400]

def c2Seg13 : List Int := [195000, 195600, 196200, 196800, 197400, 198000, 198600, 199200, 199800, 200400, 201000, 201600, 202200, 202800, 203400, 204000, 204600, 205200, 205800, 206400, 207000, 207600, 208200, 208800, 209400]

def c2Seg14 : List Int := [210000, 210600, 211200, 211800, 212400, 213000, 213600, 214200, 214800, 215400, 216000, 216600, 217200, 217800, 218400, 219000, 219600, 220200, 220800, 221400, 222000, 222600, 223200, 223800, 224400]

def c2Seg15 : List Int := [225000, 225600, 226200, 226800, 227400, 228000, 228600, 229200, 229800, 230400, 231000, 231600, 232200, 232800, 233400, 234000, 234600, 235200, 235800, 236400, 237000, 237600, 238200, 238800, 239400]

def c2Seg16 : List Int := [240000, 240600, 241200, 241800, 242400, 243000, 243600, 244200, 244800, 245400, 246000, 246600, 247200, 247800, 248400, 249000, 249600, 250200, 250800, 251400, 252000, 252600, 253200, 253800, 254400]

def c2Seg17 : List Int := [255000, 255600, 256200, 256800, 257400, 258000, 258600, 259200, 259800, 260400, 261000, 261600, 262200, 262800, 263400, 264000, 264600, 265200, 265800, 266400, 267000, 267600, 268200, 268800, 269400]

def c2Seg18 : List Int := [270000, 270600, 271200, 271800, 272400, 273000, 273600, 274200, 274800, 275400, 276000, 276600, 277200, 277800, 278400, 279000, 279600, 280200, 280800, 281400, 282000, 282600, 283200, 283800, 284400]

def c2Seg19 : List Int := [285000, 285600, 286200, 286800, 287400, 288000, 288600, 289200, 289800, 290400, 291000, 291600, 292200, 292800, 293400, 294000, 294600, 295200, 295800, 296400, 297000, 297600, 298200, 298800, 299400]

def c2Seg20 : List Int := [300000, 300600, 301200, 301800, 302400, 303000, 303600, 304200, 304800, 305400, 306000, 306600, 307200, 307800, 308400, 309000, 309600, 310200, 310800, 311400, 312000, 312600, 313200, 313800, 314400]

def c2Seg21 : List Int := [315000, 315600, 316200, 316800, 317400, 318000, 318600, 319200, 319800, 320400, 321000, 321600, 322200, 322800, 323400, 324000, 324600, 325200, 325800, 326400, 327000, 327600, 328200, 328800, 329400]

def c2Seg22 : List Int := [330000, 330600, 331200, 331800, 332400, 333000, 333600, 334200, 334800, 335400, 336000, 336600, 337200, 337800, 338400, 339000, 339600, 340200, 340800, 341400, 342000, 342600, 343200, 343800, 344400]

def c2Seg23 : List Int := [345000, 345600, 346200, 346800, 347400, 348000, 348600, 349200, 349800, 350400, 351000, 351600, 352200, 352800, 353400, 354000, 354600, 355200, 355800, 356400, 357000, 357600, 358200, 358800, 359400]

def c2Seg24 : List Int := [360000, 360600, 361200, 361800, 362400, 363000, 363600, 364200, 364800, 365400, 366000, 366600, 367200, 367800, 368400, 369000, 369600, 370200, 370800, 371400, 372000, 372600, 373200, 373800, 374400]

def c2Seg25 : List Int := [375000, 375600, 376200, 376800, 377400, 378000, 378600, 379200, 379800, 380400, 381000, 381600, 382200, 382800, 383400, 384000, 384600, 385200, 385800, 386400, 387000, 387600, 388200, 388800, 389400]

def c2Seg26 : List Int := [390000, 390600, 391200, 391800, 392400, 393000, 393600, 394200, 394800, 395400, 396000, 396600, 397200, 397800, 398400, 399000, 399600, 400200, 400800, 401400, 402000, 402600, 403200, 403800, 404400]

def c2Seg27 : List Int := [405000, 405600, 406200, 406800, 407400, 408000, 408600, 409200, 409800, 410400, 411000, 411600, 412200, 412800, 413400, 414000, 414600, 415200, 415800, 416400, 417000, 417600, 418200, 418800, 419400]

def c2Seg28 : List Int := [420000, 420600, 421200, 421800, 422400, 423000, 423600, 424200, 424800, 425400, 426000, 426600, 427200, 427800, 428400, 429000, 429600, 430200, 430800, 431400, 432000, 432600, 433200, 433800, 434400]

def c2Seg29 : List Int := [435000, 435600, 436200, 436800, 437400, 438000, 438600, 439200, 439800, 440400, 441000, 441600, 442200, 442800, 443400, 444000, 444600, 445200, 445800, 446400, 447000, 447600, 448200, 448800, 449400]

def c2Seg30 : List Int := [450000, 450600, 451200, 451800, 452400, 453000, 453600, 454200, 454800, 455400, 456000, 456600, 457200, 457800, 458400, 459000, 459600, 460200, 460800, 461400, 462000, 462600, 463200, 463800, 464400]

def c2Seg31 : List Int := [465000, 465600, 466200, 466800, 467400, 468000, 468600, 469200, 469800, 470400, 471000, 471600, 472200, 472800, 473400, 474000, 474600, 475200, 475800, 476400, 477000, 477600, 478200, 478800, 479400]

def c2Seg32 : List Int := [480000, 480600, 481200, 481800, 482400, 483000, 483600, 484200, 484800, 485400, 486000, 486600, 487200, 487800, 488400, 489000, 489600, 490200, 490800, 491400, 492000, 492600, 493200, 493800, 494400]

def c2Seg33 : List Int := [495000, 495600, 496200, 496800, 497400, 498000, 498600, 499200, 499800, 500400, 501000, 501600, 502200, 502800, 503400, 504000, 504600, 505200, 505800, 506400, 507000, 507600, 508200, 508800, 509400]

def c2Seg34 : List Int := [510000, 510600, 511200, 511800, 512400, 513000, 513600, 514200, 514800, 515400, 516000, 516600, 517200, 517800, 518400, 519000, 519600, 520200, 520800, 521400, 522000, 522600, 523200, 523800, 524400]

def c2Seg35 : List Int := [525000, 525600, 526200, 526800, 527400, 528000, 528600, 529200, 529800, 530400, 531000, 531600, 532200, 532800, 533400, 534000, 534600, 535200, 535800, 536400, 537000, 537600, 538200, 538800, 539400]

def c2Seg36 : List Int := [3540300, 3540900, 3541500, 3542100, 3542700, 3543300, 3543900, 3544500, 3545100, 3545700, 3546300, 3546900, 3547500, 3548100, 3548700, 3549300, 3549900, 3550500, 3551100, 3551700, 3552300, 3552900, 3553500, 3554100, 3554700]

def c2Seg37 : List Int := [3555300, 3555900, 3556500, 3557100, 3557700, 3558300, 3558900, 3559500, 3560100, 3560700, 3561300, 3561900, 3562500, 3563100, 3563700, 3564300, 3564900, 3565500, 3566100, 3566700, 3567300, 3567900, 3568500, 3569100, 3569700]

def c2Seg38 : List Int := [3570300, 3570900, 3571500, 3572100, 3572700, 3573300, 3573900, 3574500, 3575100, 3575700, 3576300, 3576900, 3577500, 3578100, 3578700, 3579300, 3579900, 3580500, 3581100, 3581700, 3582300, 3582900, 3583500, 3584100, 3584700]

def c2Seg39 : List Int := [3585300, 3585900, 3586500, 3587100, 3587700, 3588300, 3588900, 3589500, 3590100, 3590700, 3591300, 3591900, 3592500, 3593100, 3593700, 3594300, 3594900, 3595500, 3596100, 3596700, 3597300, 3597900, 3598500, 3599100, 3599700]

/-- Call times (ms) driving the limiter into a state where both windows are
exhausted and the hour window resets sooner than the minute window: 900 calls
at the start of the hour window, then 100 calls inside a minute window that
straddles the end of the hour window. -/
def redditTraceC2 : List Int := c2Seg0 ++ (c2Seg1 ++ (c2Seg2 ++ (c2Seg3 ++ (c2Seg4 ++ (c2Seg5 ++ (c2Seg6 ++ (c2Seg7 ++ (c2Seg8 ++ (c2Seg9 ++ (c2Seg10 ++ (c2Seg11 ++ (c2Seg12 ++ (c2Seg13 ++ (c2Seg14 ++ (c2Seg15 ++ (c2Seg16 ++ (c2Seg17 ++ (c2Seg18 ++ (c2Seg19 ++ (c2Seg20 ++ (c2Seg21 ++ (c2Seg22 ++ (c2Seg23 ++ (c2Seg24 ++ (c2Seg25 ++ (c2Seg26 ++ (c2Seg27 ++ (c2Seg28 ++ (c2Seg29 ++ (c2Seg30 ++ (c2Seg31 ++ (c2Seg32 ++ (c2Seg33 ++ (c2Seg34 ++ (c2Seg35 ++ (c2Seg36 ++ (c2Seg37 ++ (c2Seg38 ++ c2Seg39))))))))))))))))))))))))))))))))))))))

/-- Last element of a list of call times, or `d` if the list is empty. -/
def lastD (d : Int) : List Int → Int
  | [] => d
  | t :: ts => lastD t ts

/- ======================================================================
   Common data model
   (services/ingestion/src/api_connectors/mod.rs, lines 55-393).
   ====================================================================== -/

/-- Minimal model of a serde_json `Value`, as traversed by the connectors. -/
inductive Json where
  | null
  | bool (b : Bool)
  | num (n : Int)
  | str (s : String)
  | arr (elems : List Json)
  | obj (fields : List (String × Json))

/-- Field lookup in the field list of a JSON object. -/
def jsonField : List (String × Json) → String → Option Json
  | [], _ => none
  | (k, v) :: rest, key => if k = key then some v else jsonField rest key

/-- Mirror of serde_json `Value::get(key)` on objects. -/
def Json.get : Json → String → Option Json
  | .obj fields, key => jsonField fields key
  | _, _ => none

/-- Mirror of serde_json `Value::as_str`. -/
def Json.asStr : Json → Option String
  | .str s => some s
  | _ => none

/-- Mirror of serde_json `Value::as_array`. -/
def Json.asArr : Json → Option (List Json)
  | .arr elems => some elems
  | _ => none

/-- Mirror of serde_json `Value::as_u64`: a numeric value that is a
non-negative integer. -/
def Json.asU64 : Json → Option Nat
  | .num n => if 0 ≤ n then some n.toNat else none
  | _ => none

/-- Mirror of mod.rs `ConnectorError` (lines 283-316).  Error payloads of
wrapped library error values (`reqwest::Error`, `serde_json::Error`) carry no
information the claims depend on and are dropped. -/
inductive ConnectorError where
  | rateLimitExceeded (resetTime : Int)
  | authenticationFailed (message : String)
  | invalidCredentials
  | networkError
  | apiError (code : Nat) (message : String)
  | parseError
  | configError (message : String)
  | generic (message : String)
deriving DecidableEq, Repr

/-- Mirror of reqwest `StatusCode::is_success` (2xx). -/
def isSuccessStatus (s : Nat) : Bool := 200 ≤ s && s ≤ 299

/-- Mirror of mod.rs `AuthorInfo` (timestamps as integer seconds). -/
structure AuthorInfo where
  id_hash : String
  username : String
  verified : Bool
  follower_count : Option Nat
  account_created : Option Int
  account_type : Option String

/-- Mirror of mod.rs `PostMetrics`.  The source `engagement_rate` field is an
`Option<f64>`; every connector sets it to `None`, so its payload type is
modelled by an integer stand-in. -/
structure PostMetrics where
  likes : Nat
  shares : Nat
  comments : Nat
  views : Option Nat
  engagement_rate : Option Int

/-- Mirror of mod.rs `GeoLocation`.  The source coordinate and radius fields
are `f64`; no claim depends on their numeric semantics, so they are modelled
by integer stand-ins. -/
structure GeoLocation where
  latitude : Int
  longitude : Int
  radius_km : Int
  name : Option String

/-- Mirror of mod.rs `MediaDimensions`. -/
structure MediaDimensions where
  width : Nat
  height : Nat

/-- Mirror of mod.rs `MediaAttachment`. -/
structure MediaAttachment where
  media_type : String
  url : String
  alt_text : Option String
  dimensions : Option MediaDimensions
  file_size : Option Nat

/-- Mirror of mod.rs `ConsentStatus`. -/
inductive ConsentStatus where
  | explicit
  | implied
  | legitimateInterest
  | unknown

/-- Mirror of mod.rs `PrivacyFlags`. -/
structure PrivacyFlags where
  anonymized : Bool
  sensitive_content : Bool
  location_generalized : Bool
  retention_policy : String
  consent_status : ConsentStatus

/-- Mirror of mod.rs `SocialPost`.  The `metadata` HashMap is modelled as an
association list in insertion order. -/
structure SocialPost where
  id : String
  platform : String
  content : String
  author : AuthorInfo
  created_at : Int
  metrics : PostMetrics
  location : Option GeoLocation
  language : Option String
  media : List MediaAttachment
  hashtags : List String
  mentions : List String
  urls : List String
  metadata : List (String × Json)
  privacy_flags : PrivacyFlags

/-- Mirror of mod.rs `PrivacyConfig` (`location_precision_km` is an `f64` in
the source, modelled by an integer stand-in; no claim depends on it). -/
structure PrivacyConfig where
  salt : String
  location_precision_km : Int
  retention_policy : String
  filter_sensitive_content : Bool

/-- Mirror of mod.rs `ContentType`. -/
inductive ContentType where
  | text
  | image
  | video
  | link
  | all

/-- Mirror of mod.rs `SearchParams` (timestamps as integer seconds; the
`extra_params` HashMap as an association list). -/
structure SearchParams where
  query : String
  max_results : Option Nat
  start_date : Option Int
  end_date : Option Int
  language : Option String
  location : Option GeoLocation
  content_type : Option ContentType
  extra_params : List (String × String)

/- ======================================================================
   Shared normalization helpers.
   The module `api_connectors::utils` is called by the Twitter and Reddit
   connectors (`super::utils::anonymize_user_id`, `extract_hashtags`,
   `extract_mentions`, `extract_urls`, `contains_sensitive_content`,
   `apply_privacy_compliance`) but its source file is not part of the
   repository snapshot, so the definitions below are modelled from the
   specification text instead of from source code.
   ====================================================================== -/

/-- Modelled from the spec: `anonymize(raw_id, salt)` is a pure deterministic
salted hash: equal `(raw_id, salt)` pairs always produce equal hashes (spec
section 8); the concrete hash function of the missing `utils` module is
unknown, so a simple deterministic polynomial hash stands in for it. -/
def anonymize_user_id (rawId : String) (salt : String) : String :=
  "h" ++ toString ((salt ++ ":" ++ rawId).toList.foldl
    (fun h c => (h * 31 + c.toNat) % 1000000007) 7)

/-- True when the character separates word tokens. -/
def isSpaceChar (c : Char) : Bool := c = ' ' ∨ c = '\n' ∨ c = '\t' ∨ c = '\r'

/-- Splits characters into whitespace-separated chunks. -/
def splitTokens : List Char → List Char → List String
  | [], acc => [String.mk acc.reverse]
  | c :: cs, acc =>
    if isSpaceChar c then String.mk acc.reverse :: splitTokens cs []
    else splitTokens cs (c :: acc)

/-- Whitespace-separated non-empty word tokens of a content string. -/
def tokenize (content : String) : List String :=
  (splitTokens content.toList []).filter fun t => t ≠ ""

/-- Boolean string prefix test over character lists. -/
def strStartsWith (s p : String) : Bool := p.toList.isPrefixOf s.toList

/-- Modelled from the spec (missing `utils` module): hashtags are all
`#`-prefixed word tokens in the content (spec section 4.4). -/
def extract_hashtags (content : String) : List String :=
  (tokenize content).filter fun t => strStartsWith t "#"

/-- Modelled from the spec (missing `utils` module): mentions are all
`@`-prefixed word tokens in the content (spec section 4.4). -/
def extract_mentions (content : String) : List String :=
  (tokenize content).filter fun t => strStartsWith t "@"

/-- Modelled from the spec (missing `utils` module): URLs are all absolute
URLs found in the content (spec section 4.4). -/
def extract_urls (content : String) : List String :=
  (tokenize content).filter fun t =>
    strStartsWith t "http://" || strStartsWith t "https://"

/-- Boolean contiguous-sublist test over character lists. -/
def containsSub (pat : List Char) : List Char → Bool
  | [] => pat.isEmpty
  | c :: rest => pat.isPrefixOf (c :: rest) || containsSub pat rest

/-- Lower-cases every character of a string. -/
def lowerStr (s : String) : String := String.mk (s.toList.map Char.toLower)

/-- Nominal keyword list of the sensitive-content heuristic. -/
def sensitiveKeywords : List String := ["nsfw", "gore", "terror", "violence"]

/-- Modelled from the spec (missing `utils` module): heuristic keyword
detection over the content (spec section 4.4); the concrete keyword list of
the missing module is unknown, so a nominal list stands in for it. -/
def contains_sensitive_content (content : String) : Bool :=
  sensitiveKeywords.any fun k => containsSub k.toList (lowerStr content).toList

/-- Modelled from the spec (missing `utils` module): applying normalization to
an already-canonical post is a no-op (idempotence, spec section 4.4); both
converters fully populate every privacy field before calling it, so the
compliance pass is modelled as the identity transformation. -/
def apply_privacy_compliance (_cfg : PrivacyConfig) (post : SocialPost) : SocialPost :=
  post

/-- Replaces every occurrence of the five characters of the HTML entity
`&amp;` by a single ampersand, as `str::replace` does in reddit.rs line 560. -/
def replaceAmpChars : List Char → List Char
  | '&' :: 'a' :: 'm' :: 'p' :: ';' :: rest => '&' :: replaceAmpChars rest
  | c :: rest => c :: replaceAmpChars rest
  | [] => []

/-- String-level wrapper of `replaceAmpChars`. -/
def decodeHtmlAmp (s : String) : String := String.mk (replaceAmpChars s.toList)

/-- Mirror of chrono `Utc.timestamp_opt(secs, 0).single()`: defined exactly
for seconds values between the timestamps of chrono `DateTime::<Utc>::MIN_UTC`
(year -262144) and `MAX_UTC` (year 262143). -/
def chronoTimestampSingle (secs : Int) : Option Int :=
  if -8334632851200 ≤ secs ∧ secs ≤ 8210298412799 then some secs else none

/- ======================================================================
   Reddit connector payloads and normalization
   (services/ingestion/src/api_connectors/reddit.rs, lines 118-611).
   ====================================================================== -/

/-- Mirror of reddit.rs `RedditPost` (lines 151-183).  `created_utc` is an
`f64` in the source and is immediately cast with `as i64` in the converter;
the field is modelled as the integer result of that cast.  `upvote_ratio` is
an `f64` used only as an opaque metadata value and is modelled by an integer
stand-in named `upvote_ratio_num`. -/
structure RedditPost where
  id : String
  title : Option String
  selftext : Option String
  author : Option String
  author_fullname : Option String
  subreddit : String
  subreddit_id : String
  created_utc : Int
  score : Int
  upvote_ratio_num : Option Int
  num_comments : Nat
  permalink : String
  url : Option String
  domain : Option String
  is_video : Option Bool
  media : Option Json
  preview : Option Json
  thumbnail : Option String
  gilded : Option Nat
  stickied : Option Bool
  locked : Option Bool
  archived : Option Bool
  over_18 : Option Bool
  spoiler : Option Bool
  link_flair_text : Option String
  author_flair_text : Option String
  distinguished : Option String
  edited : Option Json
  all_awardings : Option (List Json)

/-- Mirror of the content assembly match in reddit.rs
`convert_post_to_social_post` (lines 424-431): title and body joined by a
blank line when both are present and the body is non-empty; else the title
when present; else the body when present; else the empty string. -/
def assembleContent : Option String → Option String → String
  | some title, some selftext =>
    if selftext ≠ "" then title ++ "\n\n" ++ selftext else title
  | some title, none => title
  | none, some selftext => selftext
  | none, none => ""

/-- The amended content-assembly contract, written the way the specification
phrases it, for comparison against `assembleContent` (the definition taken
from the source): title and body joined by a blank line when both are present
and the body is non-empty (the title may be empty); otherwise the title when
present; otherwise the body when present; empty when both are absent. -/
def contentAssemblySpec (title body : Option String) : String :=
  if title.isSome ∧ body.isSome ∧ body.getD "" ≠ "" then
    title.getD "" ++ "\n\n" ++ body.getD ""
  else if title.isSome then title.getD ""
  else if body.isSome then body.getD ""
  else ""

/-- Mirror of reddit.rs `extract_media_from_post` (lines 517-586): a fallback
video URL when the post is a video, every preview image source (with its HTML
`&amp;` entities decoded and its dimensions when both are present), and the
thumbnail when it is a real HTTP URL. -/
def extract_media_from_post (post : RedditPost) : List MediaAttachment :=
  let videoMedia :=
    if post.is_video.getD false then
      match post.media with
      | some m =>
        match m.get "reddit_video" with
        | some rv =>
          match rv.get "fallback_url" with
          | some fu =>
            match fu.asStr with
            | some u => [⟨"video", u, none, none, none⟩]
            | none => []
          | none => []
        | none => []
      | none => []
    else []
  let previewMedia :=
    match post.preview with
    | some pv =>
      match pv.get "images" with
      | some imgs =>
        match imgs.asArr with
        | some elems =>
          elems.filterMap fun image =>
            match image.get "source" with
            | some source =>
              match (source.get "url").bind Json.asStr with
              | some u =>
                let dims :=
                  match (source.get "width").bind Json.asU64,
                        (source.get "height").bind Json.asU64 with
                  | some w, some h => some (⟨w, h⟩ : MediaDimensions)
                  | _, _ => none
                some ⟨"image", decodeHtmlAmp u, none, dims, none⟩
              | none => none
            | none => none
        | none => []
      | none => []
    | none => []
  let thumbMedia :=
    match post.thumbnail with
    | some th =>
      if th ≠ "self" ∧ th ≠ "default" ∧ strStartsWith th "http" then
        [⟨"image", th, some "thumbnail", none, none⟩]
      else []
    | none => []
  videoMedia ++ previewMedia ++ thumbMedia

/-- Mirror of the metadata construction in reddit.rs
`convert_post_to_social_post` (lines 457-481), as an association list in
insertion order. -/
def redditMetadata (post : RedditPost) : List (String × Json) :=
  [("subreddit", Json.str post.subreddit),
   ("subreddit_id", Json.str post.subreddit_id),
   ("permalink", Json.str post.permalink),
   ("score", Json.num post.score)] ++
  (match post.upvote_ratio_num with
   | some v => [("upvote_ratio", Json.num v)]
   | none => []) ++
  (match post.gilded with
   | some g => [("gilded", Json.num g)]
   | none => []) ++
  [("over_18", Json.bool (post.over_18.getD false)),
   ("spoiler", Json.bool (post.spoiler.getD false)),
   ("locked", Json.bool (post.locked.getD false)),
   ("archived", Json.bool (post.archived.getD false))] ++
  (match post.link_flair_text with
   | some f => [("link_flair", Json.str f)]
   | none => [])

/-- Mirror of reddit.rs `convert_post_to_social_post` (lines 399-514).
`ingestNow` is the ingestion-time `Utc::now()` fallback used when the creation
timestamp cannot be represented. -/
def convert_post_to_social_post (cfg : PrivacyConfig) (ingestNow : Int)
    (post : RedditPost) : SocialPost :=
  let author : AuthorInfo :=
    { id_hash := anonymize_user_id (post.author_fullname.getD "unknown") cfg.salt
      username := post.author.getD "deleted"
      verified := post.distinguished.isSome
      follower_count := none
      account_created := none
      account_type := some "reddit" }
  let metrics : PostMetrics :=
    { likes := if 0 < post.score then post.score.toNat else 0
      shares := 0
      comments := post.num_comments
      views := none
      engagement_rate := none }
  let content := assembleContent post.title post.selftext
  let hashtags := extract_hashtags content
  let mentions := (extract_mentions content).map fun m => anonymize_user_id m cfg.salt
  let urls := extract_urls content
  let all_urls := urls ++
    (match post.url with
     | some u =>
       if u ≠ "https://www.reddit.com" ++ post.permalink then [u] else []
     | none => [])
  let media := extract_media_from_post post
  let created_at := (chronoTimestampSingle post.created_utc).getD ingestNow
  let privacy_flags : PrivacyFlags :=
    { anonymized := true
      sensitive_content :=
        contains_sensitive_content content || post.over_18.getD false
      location_generalized := false
      retention_policy := cfg.retention_policy
      consent_status := .implied }
  apply_privacy_compliance cfg
    { id := post.id
      platform := "reddit"
      content := content
      author := author
      created_at := created_at
      metrics := metrics
      location := none
      language := none
      media := media
      hashtags := hashtags
      mentions := mentions
      urls := all_urls
      metadata := redditMetadata post
      privacy_flags := privacy_flags }

/-- Mirror of reddit.rs `RedditThing` (lines 144-149): a listing child with a
kind tag and an untyped JSON payload. -/
structure RedditThing where
  kind : String
  data : Json

/-- Mirror of reddit.rs `RedditListingData` (lines 134-142). -/
structure RedditListingData where
  after : Option String
  before : Option String
  children : List RedditThing
  dist : Option Nat
  modhash : Option String

/-- Mirror of reddit.rs `RedditListing` (lines 127-132). -/
structure RedditListing where
  kind : String
  data : RedditListingData

/-- Mirror of the conversion loops in reddit.rs `search_posts` (lines 691-705)
and `get_user_posts` (lines 819-833): every `t3` child whose payload parses as
a `RedditPost` is converted; children of other kinds and children whose
payload fails to parse are skipped.  The serde deserialization
`serde_json::from_value::<RedditPost>` is modelled by the `parsePost`
parameter. -/
def convertChildren (cfg : PrivacyConfig) (ingestNow : Int)
    (parsePost : Json → Option RedditPost) : List RedditThing → List SocialPost
  | [] => []
  | child :: rest =>
    if child.kind = "t3" then
      match parsePost child.data with
      | some rp =>
        convert_post_to_social_post cfg ingestNow rp ::
          convertChildren cfg ingestNow parsePost rest
      | none => convertChildren cfg ingestNow parsePost rest
    else convertChildren cfg ingestNow parsePost rest

/-- Mirror of the response handling of reddit.rs `search_posts` (lines
664-708), from the point where the HTTP response has arrived: `status` and
`body` are the HTTP status and body text, and `listing` is the result of
deserializing the body as a `RedditListing` (`none` when that fails). -/
def reddit_search_posts_response (cfg : PrivacyConfig) (ingestNow : Int)
    (parsePost : Json → Option RedditPost) (status : Nat) (body : String)
    (listing : Option RedditListing) : Except ConnectorError (List SocialPost) :=
  if ¬ isSuccessStatus status then
    .error (.apiError status ("Reddit API error: " ++ body))
  else
    match listing with
    | none => .error .parseError
    | some listing =>
      .ok (convertChildren cfg ingestNow parsePost listing.data.children)

/-- Mirror of the response handling of reddit.rs `get_user_posts` (lines
792-836), identical in shape to the search response handling. -/
def reddit_get_user_posts_response (cfg : PrivacyConfig) (ingestNow : Int)
    (parsePost : Json → Option RedditPost) (status : Nat) (body : String)
    (listing : Option RedditListing) : Except ConnectorError (List SocialPost) :=
  if ¬ isSuccessStatus status then
    .error (.apiError status ("Reddit API error: " ++ body))
  else
    match listing with
    | none => .error .parseError
    | some listing =>
      .ok (convertChildren cfg ingestNow parsePost listing.data.children)

/-- Mirror of the response handling of reddit.rs `get_post_by_id` (lines
724-772): a 404 yields a successful empty result; any other non-2xx status
yields `ApiError` with the status code and body text; otherwise the first
listing child is converted when it is a parseable `t3` post, a parse failure
of that child is a `ParseError`, and anything else is a successful empty
result. -/
def reddit_get_post_by_id_response (cfg : PrivacyConfig) (ingestNow : Int)
    (parsePost : Json → Option RedditPost) (status : Nat) (body : String)
    (listing : Option RedditListing) : Except ConnectorError (Option SocialPost) :=
  if status = 404 then .ok none
  else if ¬ isSuccessStatus status then
    .error (.apiError status ("Reddit API error: " ++ body))
  else
    match listing with
    | none => .error .parseError
    | some listing =>
      match listing.data.children.head? with
      | some child =>
        if child.kind = "t3" then
          match parsePost child.data with
          | some rp => .ok (some (convert_post_to_social_post cfg ingestNow rp))
          | none => .error .parseError
        else .ok none
      | none => .ok none

/- ======================================================================
   Reddit OAuth2 token lifecycle
   (services/ingestion/src/api_connectors/reddit.rs, lines 118-125, 272-332).
   Times are integer seconds.
   ====================================================================== -/

/-- The token cache of `RedditConnector`: the `access_token` and
`token_expires_at` locks (reddit.rs lines 65-68). -/
structure TokenState where
  access_token : Option String
  token_expires_at : Option Int
deriving DecidableEq, Repr

/-- Mirror of reddit.rs `RedditTokenResponse` (lines 118-125). -/
structure RedditTokenResponse where
  access_token : String
  token_type : String
  expires_in : Nat
  scope : String
deriving DecidableEq, Repr

/-- Outcome of the single token-endpoint POST a cache miss performs: either a
transport failure, or an HTTP response with a status, a body text and the
result of deserializing the body as a `RedditTokenResponse`. -/
inductive TokenFetchOutcome where
  | netErr
  | http (status : Nat) (body : String) (json : Option RedditTokenResponse)
deriving DecidableEq, Repr

/-- Mirror of reddit.rs `get_access_token` (lines 272-332) as a sequential
state transformer.  `nowCheck` is the `Utc::now()` of the cache check (line
279) and `nowStore` the `Utc::now()` of the expiry computation after the fetch
(line 320).  The returned `Nat` counts token-endpoint requests performed by
the call.  On a cache hit the stored token is returned with no request;
otherwise one client-credentials request happens: a transport failure maps to
`NetworkError`, a non-2xx response maps to `AuthenticationFailed` carrying the
body text, an unparseable body maps to `ParseError`, and a parsed response
stores the token with `expires_at = now + expires_in - 300` seconds and
returns it. -/
def get_access_token (st : TokenState) (nowCheck nowStore : Int)
    (fetch : TokenFetchOutcome) :
    Except ConnectorError String × TokenState × Nat :=
  match st.access_token, st.token_expires_at with
  | some tok, some exp =>
    if nowCheck < exp then (.ok tok, st, 0)
    else
      match fetch with
      | .netErr => (.error .networkError, st, 1)
      | .http status body json =>
        if ¬ isSuccessStatus status then
          (.error (.authenticationFailed ("OAuth2 token request failed: " ++ body)), st, 1)
        else
          match json with
          | none => (.error .parseError, st, 1)
          | some tr =>
            (.ok tr.access_token,
             ⟨some tr.access_token, some (nowStore + (tr.expires_in : Int) - 300)⟩, 1)
  | _, _ =>
    match fetch with
    | .netErr => (.error .networkError, st, 1)
    | .http status body json =>
      if ¬ isSuccessStatus status then
        (.error (.authenticationFailed ("OAuth2 token request failed: " ++ body)), st, 1)
      else
        match json with
        | none => (.error .parseError, st, 1)
        | some tr =>
          (.ok tr.access_token,
           ⟨some tr.access_token, some (nowStore + (tr.expires_in : Int) - 300)⟩, 1)

/- ======================================================================
   Twitter reactive rate limiter
   (services/ingestion/src/api_connectors/twitter.rs, lines 68-93, 358-389).
   Times are integer milliseconds.
   ====================================================================== -/

/-- Mirror of twitter.rs `RateLimitState` (lines 68-82): server-authoritative
remaining quota, limit, window reset time and the last request timestamp. -/
structure TwitterRateState where
  remaining : Nat
  limit : Nat
  resetTime : Int
  lastRequest : Option Int
deriving DecidableEq, Repr

/-- Total sleep performed by the spacing check of twitter.rs
`wait_for_rate_limit` (lines 377-386): when less than one second has elapsed
since the last request, sleep for the remainder of that second (the
`to_std()` conversion is skipped when the remainder would be negative). -/
def twitterSpacingWait (st : TwitterRateState) (now2 : Int) : Int :=
  match st.lastRequest with
  | some last =>
    if now2 - last < 1000 then
      if 0 ≤ 1000 - (now2 - last) then 1000 - (now2 - last) else 0
    else 0
  | none => 0

/-- What one call of twitter.rs `wait_for_rate_limit` does: either the
`to_std()` conversion of a negative reset wait fails (the call returns
`ConnectorError::Generic`), or the call sleeps `dReset` ms for quota
exhaustion followed by `dSpacing` ms for minimum spacing and returns `Ok`. -/
inductive TwitterWaitResult where
  | invalidDuration
  | waited (dReset dSpacing : Int)
deriving DecidableEq, Repr

/-- Mirror of twitter.rs `TwitterConnector::wait_for_rate_limit` (lines
358-389): when the recorded remaining quota is 0 and the reset time is still
in the future, sleep exactly until the reset time; independently, enforce a
minimum spacing of one second since the last request.  `now1` is the
`Utc::now()` of the quota check (line 363) and `now2` the `Utc::now()` of the
spacing check (line 378). -/
def twitter_wait_for_rate_limit (st : TwitterRateState) (now1 now2 : Int) :
    TwitterWaitResult :=
  if st.remaining = 0 then
    if now1 < st.resetTime then
      let d := st.resetTime - now1
      if d < 0 then .invalidDuration
      else .waited d (twitterSpacingWait st now2)
    else .waited 0 (twitterSpacingWait st now2)
  else .waited 0 (twitterSpacingWait st now2)

/- ======================================================================
   Twitter payloads and normalization
   (services/ingestion/src/api_connectors/twitter.rs, lines 95-315, 423-642).
   ====================================================================== -/

/-- Mirror of twitter.rs `TwitterMetrics` (lines 133-141). -/
structure TwitterMetrics where
  retweet_count : Option Nat
  like_count : Option Nat
  reply_count : Option Nat
  quote_count : Option Nat
  impression_count : Option Nat

/-- Mirror of twitter.rs `TwitterUserMetrics` (lines 143-150). -/
structure TwitterUserMetrics where
  followers_count : Option Nat
  following_count : Option Nat
  tweet_count : Option Nat
  listed_count : Option Nat

/-- Mirror of twitter.rs `TwitterCoordinates` (lines 159-165); the `f64`
coordinates are modelled by integer stand-ins, since no claim depends on
their numeric semantics. -/
structure TwitterCoordinates where
  coord_type : String
  coordinates : List Int

/-- Mirror of twitter.rs `TwitterGeo` (lines 152-157). -/
structure TwitterGeo where
  coordinates : Option TwitterCoordinates
  place_id : Option String

/-- Mirror of twitter.rs `TwitterHashtag` (lines 176-182); the source fields
`start` and `end` are modelled as `startIdx` and `endIdx` (`end` is a reserved
word). -/
structure TwitterHashtag where
  startIdx : Nat
  endIdx : Nat
  tag : String

/-- Mirror of twitter.rs `TwitterMention` (lines 184-191). -/
structure TwitterMention where
  startIdx : Nat
  endIdx : Nat
  username : String
  id : Option String

/-- Mirror of twitter.rs `TwitterUrl` (lines 193-202). -/
structure TwitterUrl where
  startIdx : Nat
  endIdx : Nat
  url : String
  expanded_url : Option String
  display_url : Option String
  unwound_url : Option String

/-- Mirror of twitter.rs `TwitterEntities` (lines 167-174); the
`annotations` field is a list of untyped payloads the converter never reads,
modelled as JSON values under the name `moreEntities`. -/
structure TwitterEntities where
  hashtags : Option (List TwitterHashtag)
  mentions : Option (List TwitterMention)
  urls : Option (List TwitterUrl)
  moreEntities : Option (List Json)

/-- Mirror of twitter.rs `TwitterAttachments` (lines 216-220). -/
structure TwitterAttachments where
  media_keys : Option (List String)
  poll_ids : Option (List String)

/-- Mirror of twitter.rs `TwitterContextDomain` (lines 229-235). -/
structure TwContextDomain where
  id : String
  name : String
  description : Option String

/-- Mirror of twitter.rs `TwitterContextEntity` (lines 237-243). -/
structure TwContextEntity where
  id : String
  name : String
  description : Option String

/-- Mirror of twitter.rs `TwitterContextAnnotation` (lines 222-227), under
the shorter name `TwContextItem`. -/
structure TwContextItem where
  domain : TwContextDomain
  entity : TwContextEntity

/-- Mirror of twitter.rs `TwitterReferencedTweet` (lines 245-251). -/
structure TwReferencedTweet where
  ref_type : String
  id : String

/-- Mirror of twitter.rs `TwitterTweet` (lines 104-118); the source field
`context_annotations` is modelled under the name `contextItems`. -/
structure TwitterTweet where
  id : String
  text : String
  author_id : Option String
  created_at : Option String
  public_metrics : Option TwitterMetrics
  geo : Option TwitterGeo
  lang : Option String
  entities : Option TwitterEntities
  attachments : Option TwitterAttachments
  contextItems : Option (List TwContextItem)
  referenced_tweets : Option (List TwReferencedTweet)

/-- Mirror of twitter.rs `TwitterUser` (lines 120-131). -/
structure TwitterUser where
  id : String
  username : String
  name : String
  verified : Option Bool
  public_metrics : Option TwitterUserMetrics
  created_at : Option String
  description : Option String
  profile_image_url : Option String

/-- Mirror of twitter.rs `TwitterMediaMetrics` (lines 277-281). -/
structure TwitterMediaMetrics where
  view_count : Option Nat

/-- Mirror of twitter.rs `TwitterMedia` (lines 262-275). -/
structure TwitterMedia where
  media_key : String
  media_type : String
  url : Option String
  preview_image_url : Option String
  alt_text : Option String
  width : Option Nat
  height : Option Nat
  duration_ms : Option Nat
  public_metrics : Option TwitterMediaMetrics

/-- Mirror of twitter.rs `TwitterPlace` (lines 283-293). -/
structure TwitterPlace where
  id : String
  full_name : String
  name : String
  country : Option String
  country_code : Option String
  geo : Option Json
  place_type : Option String

/-- Mirror of twitter.rs `TwitterIncludes` (lines 253-260). -/
structure TwitterIncludes where
  users : Option (List TwitterUser)
  media : Option (List TwitterMedia)
  places : Option (List TwitterPlace)
  tweets : Option (List TwitterTweet)

/-- Mirror of twitter.rs `convert_user_to_author` (lines 593-610).
`parseRfc3339` models chrono `DateTime::parse_from_rfc3339`. -/
def convert_user_to_author (cfg : PrivacyConfig)
    (parseRfc3339 : String → Option Int) (user : TwitterUser) : AuthorInfo :=
  { id_hash := anonymize_user_id user.id cfg.salt
    username := user.username
    verified := user.verified.getD false
    follower_count := user.public_metrics.bind fun m => m.followers_count
    account_created := user.created_at.bind parseRfc3339
    account_type := some "twitter" }

/-- Mirror of twitter.rs `create_anonymous_author` (lines 612-622). -/
def create_anonymous_author (cfg : PrivacyConfig) (userId : String) : AuthorInfo :=
  { id_hash := anonymize_user_id userId cfg.salt
    username := "anonymous"
    verified := false
    follower_count := none
    account_created := none
    account_type := some "twitter" }

/-- Mirror of twitter.rs `convert_twitter_media_to_attachment` (lines
624-642). -/
def convert_twitter_media_to_attachment (media : TwitterMedia) : MediaAttachment :=
  let dims :=
    match media.width, media.height with
    | some w, some h => some (⟨w, h⟩ : MediaDimensions)
    | _, _ => none
  { media_type := media.media_type
    url := ((media.url.orElse fun _ => media.preview_image_url).getD "")
    alt_text := media.alt_text
    dimensions := dims
    file_size := none }

/-- Mirror of the metadata construction in twitter.rs `convert_tweet_to_post`
(lines 537-559). -/
def twitterMetadata (tweet : TwitterTweet) : List (String × Json) :=
  [("tweet_id", Json.str tweet.id)] ++
  (match tweet.contextItems with
   | some ctxs =>
     [("context_annotations", Json.arr (ctxs.map fun ctx =>
        Json.obj [("domain", Json.str ctx.domain.name),
                  ("entity", Json.str ctx.entity.name)]))]
   | none => []) ++
  (match tweet.referenced_tweets with
   | some refs =>
     [("referenced_tweets", Json.arr (refs.map fun rt =>
        Json.obj [("type", Json.str rt.ref_type), ("id", Json.str rt.id)]))]
   | none => [])

/-- Mirror of twitter.rs `convert_tweet_to_post` (lines 423-591).
`parseRfc3339` models chrono `DateTime::parse_from_rfc3339` and `ingestNow`
is the ingestion-time `Utc::now()` fallback. -/
def convert_tweet_to_post (cfg : PrivacyConfig)
    (parseRfc3339 : String → Option Int) (ingestNow : Int)
    (tweet : TwitterTweet) (users : Option (List TwitterUser))
    (media : Option (List TwitterMedia)) (_places : Option (List TwitterPlace)) :
    SocialPost :=
  let author :=
    match tweet.author_id with
    | some authorId =>
      match users with
      | some us =>
        match us.find? fun u => u.id == authorId with
        | some u => convert_user_to_author cfg parseRfc3339 u
        | none => create_anonymous_author cfg authorId
      | none => create_anonymous_author cfg authorId
    | none => create_anonymous_author cfg "unknown"
  let metrics : PostMetrics :=
    match tweet.public_metrics with
    | some pm =>
      { likes := pm.like_count.getD 0
        shares := pm.retweet_count.getD 0 + pm.quote_count.getD 0
        comments := pm.reply_count.getD 0
        views := pm.impression_count
        engagement_rate := none }
    | none =>
      { likes := 0, shares := 0, comments := 0, views := none,
        engagement_rate := none }
  let location : Option GeoLocation :=
    tweet.geo.bind fun geo =>
      geo.coordinates.map fun coords =>
        if 2 ≤ coords.coordinates.length then
          { longitude := coords.coordinates.getD 0 0
            latitude := coords.coordinates.getD 1 0
            radius_km := 1
            name := none }
        else
          { latitude := 0, longitude := 0, radius_km := 1, name := none }
  let hashtags :=
    ((tweet.entities.bind fun e => e.hashtags).map fun tags =>
      tags.map fun t => t.tag).getD []
  let mentions :=
    ((tweet.entities.bind fun e => e.mentions).map fun ms =>
      ms.map fun m => anonymize_user_id m.username cfg.salt).getD []
  let urls :=
    ((tweet.entities.bind fun e => e.urls).map fun us =>
      us.map fun u =>
        ((u.expanded_url.orElse fun _ => u.unwound_url).getD u.url)).getD []
  let media_attachments :=
    match tweet.attachments with
    | some atts =>
      match atts.media_keys with
      | some keys =>
        match media with
        | some mediaList =>
          (keys.filterMap fun key =>
            mediaList.find? fun m => m.media_key == key).map
            convert_twitter_media_to_attachment
        | none => []
      | none => []
    | none => []
  let created_at := (tweet.created_at.bind parseRfc3339).getD ingestNow
  let privacy_flags : PrivacyFlags :=
    { anonymized := true
      sensitive_content := contains_sensitive_content tweet.text
      location_generalized := location.isSome
      retention_policy := cfg.retention_policy
      consent_status := .implied }
  apply_privacy_compliance cfg
    { id := tweet.id
      platform := "twitter"
      content := tweet.text
      author := author
      created_at := created_at
      metrics := metrics
      location := location
      language := tweet.lang
      media := media_attachments
      hashtags := hashtags
      mentions := mentions
      urls := urls
      metadata := twitterMetadata tweet
      privacy_flags := privacy_flags }

/-- Mirror of the single-tweet lookup response envelope of twitter.rs
`get_post_by_id` (lines 828-853): the `data` node of the response JSON, and
the leniently parsed `includes` node. -/
structure TwitterLookupEnvelope where
  dataJson : Option Json
  includes : Option TwitterIncludes

/-- Mirror of the response handling of twitter.rs `get_post_by_id` (lines
803-853), from the point where the HTTP response has arrived.  `envelope` is
the result of deserializing the body as JSON (`none` when that fails), and
`parseTweet` models `serde_json::from_value::<TwitterTweet>`. -/
def twitter_get_post_by_id_response (cfg : PrivacyConfig)
    (parseRfc3339 : String → Option Int) (ingestNow : Int)
    (parseTweet : Json → Option TwitterTweet) (status : Nat) (body : String)
    (envelope : Option TwitterLookupEnvelope) :
    Except ConnectorError (Option SocialPost) :=
  if status = 404 then .ok none
  else if ¬ isSuccessStatus status then
    .error (.apiError status ("Twitter API error: " ++ body))
  else
    match envelope with
    | none => .error .parseError
    | some env =>
      match env.dataJson with
      | some dj =>
        match parseTweet dj with
        | none => .error .parseError
        | some tweet =>
          .ok (some (convert_tweet_to_post cfg parseRfc3339 ingestNow tweet
            (env.includes.bind fun i => i.users)
            (env.includes.bind fun i => i.media)
            (env.includes.bind fun i => i.places)))
      | none => .ok none

/- ======================================================================
   Search URL construction
   (twitter.rs build_search_url lines 644-698,
    reddit.rs build_search_url lines 588-611).
   ====================================================================== -/

/-- UTF-8 encoding of one character, as a list of byte values. -/
def utf8Bytes (c : Char) : List Nat :=
  let n := c.toNat
  if n < 128 then [n]
  else if n < 2048 then [192 + n / 64, 128 + n % 64]
  else if n < 65536 then [224 + n / 4096, 128 + (n / 64) % 64, 128 + n % 64]
  else [240 + n / 262144, 128 + (n / 4096) % 64, 128 + (n / 64) % 64, 128 + n % 64]

/-- Upper-case hexadecimal digits. -/
def hexDigitChars : List Char :=
  ['0', '1', '2', '3', '4', '5', '6', '7', '8', '9', 'A', 'B', 'C', 'D', 'E', 'F']

/-- Percent-encoding of one byte value. -/
def byteHex (b : Nat) : String :=
  String.mk ['%', hexDigitChars.getD (b / 16) '0', hexDigitChars.getD (b % 16) '0']

/-- Bytes the `urlencoding` crate leaves unencoded: ASCII alphanumerics and
`-`, `_`, `.`, `~`. -/
def urlAllowedByte (b : Nat) : Bool :=
  (48 ≤ b && b ≤ 57) || (65 ≤ b && b ≤ 90) || (97 ≤ b && b ≤ 122) ||
    b = 45 || b = 95 || b = 46 || b = 126

/-- Mirror of `urlencoding::encode`: percent-encode every UTF-8 byte outside
the unreserved set. -/
def urlencode (s : String) : String :=
  String.join (s.toList.map fun c =>
    String.join ((utf8Bytes c).map fun b =>
      if urlAllowedByte b then String.mk [Char.ofNat b] else byteHex b))

/-- Joins key-value pairs into an HTTP query string, each key and value
percent-encoded, as both `build_search_url` functions do. -/
def joinQueryParams (params : List (String × String)) : String :=
  String.intercalate "&" (params.map fun kv => urlencode kv.1 ++ "=" ++ urlencode kv.2)

/-- Mirror of the query parameter list built by reddit.rs `build_search_url`
(lines 588-611): query, fixed type and sort, a `limit` of at most 100
defaulting to 25, and a `t=all` time filter when either date bound is set. -/
def reddit_search_query_params (params : SearchParams) : List (String × String) :=
  [("q", params.query),
   ("type", "link"),
   ("sort", "relevance"),
   ("limit", toString (min (params.max_results.getD 25) 100))] ++
  (if params.start_date.isSome || params.end_date.isSome then
    [("t", "all")]
  else [])

/-- Mirror of reddit.rs `build_search_url` (lines 588-611). -/
def reddit_build_search_url (baseUrl : String) (params : SearchParams) : String :=
  baseUrl ++ "/search" ++ "?" ++ joinQueryParams (reddit_search_query_params params)

/-- Mirror of the query parameter list built by twitter.rs `build_search_url`
(lines 644-698): query, a `max_results` of at most 100 defaulting to 10, the
fixed field selections and expansions, and RFC 3339 date bounds when set
(`fmtRfc3339` models chrono `to_rfc3339`). -/
def twitter_search_query_params (fmtRfc3339 : Int → String)
    (params : SearchParams) : List (String × String) :=
  [("query", params.query),
   ("max_results", toString (min (params.max_results.getD 10) 100)),
   ("tweet.fields", "id,text,author_id,created_at,public_metrics,geo,lang,entities,attachments,context_annotations,referenced_tweets"),
   ("user.fields", "id,username,name,verified,public_metrics,created_at,description"),
   ("media.fields", "media_key,type,url,preview_image_url,alt_text,width,height,duration_ms,public_metrics"),
   ("place.fields", "id,full_name,name,country,country_code,geo,place_type"),
   ("expansions", "author_id,attachments.media_keys,geo.place_id,referenced_tweets.id")] ++
  (match params.start_date with
   | some d => [("start_time", fmtRfc3339 d)]
   | none => []) ++
  (match params.end_date with
   | some d => [("end_time", fmtRfc3339 d)]
   | none => [])

/-- Mirror of twitter.rs `build_search_url` (lines 644-698). -/
def twitter_build_search_url (baseUrl : String) (fmtRfc3339 : Int → String)
    (params : SearchParams) : String :=
  baseUrl ++ "/tweets/search/recent" ++ "?" ++
    joinQueryParams (twitter_search_query_params fmtRfc3339 params)

/-- Lookup of a query parameter value by key (first occurrence). -/
def lookupParam : List (String × String) → String → Option String
  | [], _ => none
  | (k, v) :: rest, key => if k = key then some v else lookupParam rest key

/- ======================================================================
   Instagram and Telegram connectors
   (instagram.rs lines 57-62, telegram.rs lines 58-63).
   ====================================================================== -/

/-- Mirror of instagram.rs `InstagramConnector::search_posts` (lines 57-62):
the Basic Display API has no public search, so every call returns
`ConfigError`. -/
def instagram_search_posts (_params : SearchParams) :
    Except ConnectorError (List SocialPost) :=
  .error (.configError "Instagram Basic Display API doesn\x27t support public search")

/-- Mirror of telegram.rs `TelegramConnector::search_posts` (lines 58-63):
the Bot API has no search, so every call returns `ConfigError`. -/
def telegram_search_posts (_params : SearchParams) :
    Except ConnectorError (List SocialPost) :=
  .error (.configError "Telegram Bot API doesn\x27t support search functionality")

/-- A concrete Reddit post payload used by witnesses. -/
def sampleRedditPost : RedditPost :=
  { id := "p1", title := some "Title", selftext := some "Body text",
    author := some "alice", author_fullname := some "t2_a1",
    subreddit := "test", subreddit_id := "t5_1", created_utc := 1700000000,
    score := 5, upvote_ratio_num := none, num_comments := 2,
    permalink := "/r/test/p1", url := none, domain := none, is_video := none,
    media := none, preview := none, thumbnail := none, gilded := none,
    stickied := none, locked := none, archived := none, over_18 := none,
    spoiler := none, link_flair_text := none, author_flair_text := none,
    distinguished := none, edited := none, all_awardings := none }

/- ======================================================================
   Theorems.
   ====================================================================== -/

/-- Running the Reddit limiter over concatenated call sequences runs the two
parts in order. -/
theorem redditRateRun_append (l1 l2 : List Int) :
    ∀ st : RedditRateState,
      redditRateRun st (l1 ++ l2) = redditRateRun (redditRateRun st l1) l2 := by
  induction l1 with
  | nil => intro st; rfl
  | cons t ts ih => intro st; simp only [List.cons_append, redditRateRun]; exact ih _

/-- Completion times of a concatenated call sequence are the completion times
of the first part followed by those of the second part, started from the
state the first part leaves behind. -/
theorem redditCompletions_append (l1 l2 : List Int) :
    ∀ st : RedditRateState,
      redditCompletions st (l1 ++ l2) =
        redditCompletions st l1 ++ redditCompletions (redditRateRun st l1) l2 := by
  induction l1 with
  | nil => intro st; rfl
  | cons t ts ih =>
    intro st
    simp only [List.cons_append, redditCompletions, redditRateRun]
    rcases h : reddit_wait_for_rate_limit st t with ⟨st2, a⟩
    cases a <;> simp [ih st2]

/-- Window counts add over list concatenation. -/
theorem countInWindow_append (a w : Int) (l1 l2 : List Int) :
    countInWindow a w (l1 ++ l2) = countInWindow a w l1 + countInWindow a w l2 := by
  induction l1 with
  | nil => simp [countInWindow]
  | cons t ts ih =>
    simp only [List.cons_append, countInWindow, List.append_eq, ih]
    omega

/-- Monotonicity of a concatenated time sequence splits into monotonicity of
the parts, the second part starting from the last time of the first. -/
theorem monoFrom_append (l1 l2 : List Int) :
    ∀ t0, monoFrom t0 (l1 ++ l2) = (monoFrom t0 l1 && monoFrom (lastD t0 l1) l2) := by
  induction l1 with
  | nil => intro t0; simp [monoFrom, lastD]
  | cons t ts ih =>
    intro t0
    simp only [List.cons_append, monoFrom, lastD, List.append_eq, ih t, Bool.and_assoc]


/-- Window rollover never touches the last-request timestamp. -/
theorem redditRollover_lastRequest (st : RedditRateState) (now : Int) :
    (redditRollover st now).lastRequest = st.lastRequest := by
  simp only [redditRollover]
  split <;> split <;> rfl

/-- Window rollover never increases the minute counter. -/
theorem redditRollover_minute_le (st : RedditRateState) (now : Int) :
    (redditRollover st now).requestsThisMinute ≤ st.requestsThisMinute := by
  simp only [redditRollover]
  split <;> split <;> simp

/-- Window rollover never increases the hour counter. -/
theorem redditRollover_hour_le (st : RedditRateState) (now : Int) :
    (redditRollover st now).requestsThisHour ≤ st.requestsThisHour := by
  simp only [redditRollover]
  split <;> split <;> simp

/-- After rollover, the minute window reset lies strictly in the future. -/
theorem redditRollover_pendingMinute_pos (st : RedditRateState) (now : Int) :
    0 < redditPendingMinute (redditRollover st now) now := by
  simp only [redditRollover, redditPendingMinute]
  split <;> split <;> simp_all <;> omega

/-- After rollover, the hour window reset lies strictly in the future. -/
theorem redditRollover_pendingHour_pos (st : RedditRateState) (now : Int) :
    0 < redditPendingHour (redditRollover st now) now := by
  simp only [redditRollover, redditPendingHour]
  split <;> split <;> simp_all <;> omega

/-- Anatomy of a call the Reddit limiter lets through at once: both counters
of the rolled-over state are incremented and were strictly below their caps,
the last request is recorded, and the call came at least 600 ms after the
previously recorded request. -/
theorem reddit_step_proceed (st : RedditRateState) (now : Int) (st2 : RedditRateState)
    (h : reddit_wait_for_rate_limit st now = (st2, .proceed)) :
    st2.requestsThisMinute = (redditRollover st now).requestsThisMinute + 1 ∧
    st2.requestsThisHour = (redditRollover st now).requestsThisHour + 1 ∧
    st2.lastRequest = some now ∧
    (redditRollover st now).requestsThisMinute < 100 ∧
    (redditRollover st now).requestsThisHour < 1000 ∧
    (∀ l, st.lastRequest = some l → l + 600 ≤ now) := by
  have hlr := redditRollover_lastRequest st now
  simp only [reddit_wait_for_rate_limit] at h
  split at h
  · split at h <;> simp at h
  · split at h
    · split at h <;> simp at h
    · split at h
      next last heq =>
        split at h
        · split at h
          · simp at h
          · rw [Prod.mk.injEq] at h
            obtain ⟨rfl, -⟩ := h
            refine ⟨rfl, rfl, rfl, by omega, by omega, ?_⟩
            intro l hl
            rw [hlr, hl] at heq
            cases heq
            omega
        · rw [Prod.mk.injEq] at h
          obtain ⟨rfl, -⟩ := h
          refine ⟨rfl, rfl, rfl, by omega, by omega, ?_⟩
          intro l hl
          rw [hlr, hl] at heq
          cases heq
          omega
      next heq =>
        rw [Prod.mk.injEq] at h
        obtain ⟨rfl, -⟩ := h
        refine ⟨rfl, rfl, rfl, by omega, by omega, ?_⟩
        intro l hl
        rw [hlr, hl] at heq
        cases heq

/-- A call the Reddit limiter makes wait leaves the state exactly as the
window rollover produced it: no counter is incremented, no request
recorded. -/
theorem reddit_step_no_proceed (st : RedditRateState) (now : Int)
    (st2 : RedditRateState) (a : RedditRateAction)
    (h : reddit_wait_for_rate_limit st now = (st2, a)) (ha : a ≠ .proceed) :
    st2 = redditRollover st now := by
  simp only [reddit_wait_for_rate_limit] at h
  split at h
  · split at h <;> (rw [Prod.mk.injEq] at h; exact h.1.symm)
  · split at h
    · split at h <;> (rw [Prod.mk.injEq] at h; exact h.1.symm)
    · split at h
      next last heq =>
        split at h
        · split at h
          · rw [Prod.mk.injEq] at h; exact h.1.symm
          · rw [Prod.mk.injEq] at h; exact absurd h.2.symm ha
        · rw [Prod.mk.injEq] at h; exact absurd h.2.symm ha
      next heq =>
        rw [Prod.mk.injEq] at h; exact absurd h.2.symm ha

/-- One limiter call keeps the counters within 100 and 1000. -/
theorem reddit_step_caps (st : RedditRateState) (now : Int)
    (h1 : st.requestsThisMinute ≤ 100) (h2 : st.requestsThisHour ≤ 1000) :
    (reddit_wait_for_rate_limit st now).1.requestsThisMinute ≤ 100 ∧
    (reddit_wait_for_rate_limit st now).1.requestsThisHour ≤ 1000 := by
  have hm := redditRollover_minute_le st now
  have hh := redditRollover_hour_le st now
  rcases hs : reddit_wait_for_rate_limit st now with ⟨st2, a⟩
  by_cases hp : a = RedditRateAction.proceed
  · subst hp
    obtain ⟨e1, e2, _, b1, b2, _⟩ := reddit_step_proceed st now st2 hs
    simp only
    omega
  · have he := reddit_step_no_proceed st now st2 a hs hp
    subst he
    simp only
    omega

/-- The limiter counters never exceed 100 per minute window and 1000 per
hour window, over any call sequence. -/
theorem redditRateRun_caps (times : List Int) :
    ∀ st : RedditRateState, st.requestsThisMinute ≤ 100 → st.requestsThisHour ≤ 1000 →
      (redditRateRun st times).requestsThisMinute ≤ 100 ∧
      (redditRateRun st times).requestsThisHour ≤ 1000 := by
  induction times with
  | nil => intro st h1 h2; exact ⟨h1, h2⟩
  | cons t ts ih =>
    intro st h1 h2
    simp only [redditRateRun]
    have hc := reddit_step_caps st t h1 h2
    exact ih _ hc.1 hc.2

/-- Completion times produced by the Reddit limiter are at least 600 ms
apart, starting from the recorded last request. -/
theorem redditCompletions_spaced (times : List Int) :
    ∀ st : RedditRateState, SpacedFrom st.lastRequest (redditCompletions st times) := by
  induction times with
  | nil => intro st; trivial
  | cons t ts ih =>
    intro st
    rcases hs : reddit_wait_for_rate_limit st t with ⟨st2, a⟩
    cases a with
    | proceed =>
      obtain ⟨-, -, hlast, -, -, hgap⟩ := reddit_step_proceed st t st2 hs
      simp only [redditCompletions, hs]
      refine ⟨hgap, ?_⟩
      have hspace := ih st2
      rwa [hlast] at hspace
    | waitMinuteReset d =>
      have he := reddit_step_no_proceed st t st2 _ hs (by simp)
      simp only [redditCompletions, hs]
      rw [he]
      have hspace := ih (redditRollover st t)
      rwa [redditRollover_lastRequest] at hspace
    | waitHourReset d =>
      have he := reddit_step_no_proceed st t st2 _ hs (by simp)
      simp only [redditCompletions, hs]
      rw [he]
      have hspace := ih (redditRollover st t)
      rwa [redditRollover_lastRequest] at hspace
    | waitSpacing d =>
      have he := reddit_step_no_proceed st t st2 _ hs (by simp)
      simp only [redditCompletions, hs]
      rw [he]
      have hspace := ih (redditRollover st t)
      rwa [redditRollover_lastRequest] at hspace
    | invalidDuration =>
      have he := reddit_step_no_proceed st t st2 _ hs (by simp)
      simp only [redditCompletions, hs]
      rw [he]
      have hspace := ih (redditRollover st t)
      rwa [redditRollover_lastRequest] at hspace

/-- Every element of a 600 ms spaced list is at least 600 ms after the
anchoring time. -/
theorem spacedFrom_head_le (l : List Int) :
    ∀ t, SpacedFrom (some t) l → ∀ y ∈ l, t + 600 ≤ y := by
  induction l with
  | nil => intro t _ y hy; cases hy
  | cons x rest ih =>
    intro t h y hy
    obtain ⟨h1, h2⟩ := h
    rcases List.mem_cons.mp hy with rfl | hy
    · exact h1 t rfl
    · have := ih x h2 y hy
      have := h1 t rfl
      omega

/-- Window counts are monotone under window inclusion on the listed
elements. -/
theorem countInWindow_mono (a w a2 w2 : Int) :
    ∀ l : List Int, (∀ y ∈ l, a ≤ y → y < a + w → a2 ≤ y ∧ y < a2 + w2) →
      countInWindow a w l ≤ countInWindow a2 w2 l := by
  intro l
  induction l with
  | nil => intro _; simp [countInWindow]
  | cons t ts ih =>
    intro h
    simp only [countInWindow]
    have hts := ih fun y hy hy1 hy2 => h y (List.mem_cons_of_mem t hy) hy1 hy2
    by_cases hc : a ≤ t ∧ t < a + w
    · obtain ⟨c1, c2⟩ := h t (List.mem_cons_self t ts) hc.1 hc.2
      rw [if_pos hc, if_pos ⟨c1, c2⟩]
      omega
    · rw [if_neg hc]
      split <;> omega

/-- A list of times spaced at least 600 ms apart puts at most `N` elements
into any half-open window of length `600 * N`. -/
theorem spacedFrom_count (l : List Int) :
    ∀ (N : Nat) (last : Option Int) (a : Int),
      SpacedFrom last l → countInWindow a (600 * (N : Int)) l ≤ N := by
  induction l with
  | nil => intro N last a _; simp [countInWindow]
  | cons t ts ih =>
    intro N last a h
    obtain ⟨h1, h2⟩ := h
    simp only [countInWindow]
    by_cases hc : a ≤ t ∧ t < a + 600 * (N : Int)
    · rcases N with _ | m
      · exfalso
        have := hc.1
        have := hc.2
        simp at this
        omega
      · rw [if_pos hc]
        have hall := spacedFrom_head_le ts t h2
        have hmono : countInWindow a (600 * ((m + 1 : Nat) : Int)) ts ≤
            countInWindow (a + 600) (600 * (m : Int)) ts := by
          apply countInWindow_mono
          intro y hy hy1 hy2
          have hge := hall y hy
          push_cast at hy2 ⊢
          constructor
          · omega
          · omega
        have hrec := ih m (some t) (a + 600) h2
        omega
    · rw [if_neg hc]
      have hrec := ih N (some t) a h2
      omega

/-- C1, amended.  The original claim is refuted by
`C1_rolling_hour_counterexample`: the hour cap is kept per fixed hour window
of the limiter, not per rolling hour.  What holds of
`RedditConnector::wait_for_rate_limit`, for every call sequence from a fresh
limiter, is: (i) at most 100 calls complete without waiting within any
rolling one-minute interval (a consequence of the 600 ms minimum spacing);
and (ii) the per-minute and per-hour window counters never exceed 100 and
1000, so within each fixed window between two resets at most 100,
respectively 1000, calls complete without waiting. -/
theorem C1_rolling_minute_cap_and_window_counters (t0 : Int) (times : List Int) (a : Int) :
    countInWindow a 60000 (redditCompletions (initialRedditRateState t0) times) ≤ 100 ∧
    (redditRateRun (initialRedditRateState t0) times).requestsThisMinute ≤ 100 ∧
    (redditRateRun (initialRedditRateState t0) times).requestsThisHour ≤ 1000 := by
  refine ⟨?_, redditRateRun_caps times _ (by simp [initialRedditRateState])
    (by simp [initialRedditRateState])⟩
  have hsp := redditCompletions_spaced times (initialRedditRateState t0)
  have hcount :=
    spacedFrom_count (redditCompletions (initialRedditRateState t0) times) 100 _ a hsp
  norm_num at hcount
  exact hcount

/-- C2, amended.  The original claim is refuted by
`C2_smallest_pending_counterexample`: a capped call does not wait for the
smallest pending rollover.  What holds of reddit.rs `wait_for_rate_limit` is:
when the minute window is at its cap after rollover, the call suspends until
the minute window rolls over (even if the hour window rollover is sooner)
without incrementing counters; when only the hour window is at its cap, the
call suspends until the hour window rolls over without incrementing; and
every call that proceeds increments both window counters and records
`last_request = now`. -/
theorem C2_cap_wait_precedence (st : RedditRateState) (now : Int) :
    (100 ≤ (redditRollover st now).requestsThisMinute →
      reddit_wait_for_rate_limit st now =
        (redditRollover st now,
          .waitMinuteReset (redditPendingMinute (redditRollover st now) now))) ∧
    ((redditRollover st now).requestsThisMinute < 100 →
      1000 ≤ (redditRollover st now).requestsThisHour →
      reddit_wait_for_rate_limit st now =
        (redditRollover st now,
          .waitHourReset (redditPendingHour (redditRollover st now) now))) ∧
    (∀ st2, reddit_wait_for_rate_limit st now = (st2, .proceed) →
      st2.requestsThisMinute = (redditRollover st now).requestsThisMinute + 1 ∧
      st2.requestsThisHour = (redditRollover st now).requestsThisHour + 1 ∧
      st2.lastRequest = some now) := by
  have hm := redditRollover_pendingMinute_pos st now
  have hh := redditRollover_pendingHour_pos st now
  refine ⟨?_, ?_, ?_⟩
  · intro hcap
    simp only [reddit_wait_for_rate_limit]
    rw [if_pos hcap, if_neg (by omega)]
  · intro hlt hcap
    simp only [reddit_wait_for_rate_limit]
    rw [if_neg (by omega), if_pos hcap, if_neg (by omega)]
  · intro st2 h
    obtain ⟨e1, e2, e3, -, -, -⟩ := reddit_step_proceed st now st2 h
    exact ⟨e1, e2, e3⟩

/-- Witness for `C2_cap_wait_precedence`: a limiter whose minute window holds
100 requests makes the next call (10 ms into the window) wait the remaining
59990 ms without incrementing. -/
theorem C2_cap_wait_precedence_witness :
    reddit_wait_for_rate_limit ⟨100, 0, 0, 0, none⟩ 10 =
      (⟨100, 0, 0, 0, none⟩, .waitMinuteReset 59990) := by
  have h := (C2_cap_wait_precedence ⟨100, 0, 0, 0, none⟩ 10).1 (by decide)
  rw [h]
  decide

set_option maxRecDepth 8000 in
/-- C1, counterexample.  The claim asserts that at most 1000 calls complete
without waiting within any rolling one-hour interval.  On the monotone call
sequence `redditTraceC1` from a fresh limiter, every call completes without
waiting, and the rolling hour `[3000600 ms, 6600600 ms)` contains 1001 of the
completion times: the limiter counts fixed windows, so the 999 completions
packed into the end of the first hour window and the completions right after
the window resets at 3600000 ms share a rolling hour. -/
theorem C1_rolling_hour_counterexample :
    monoFrom 0 redditTraceC1 = true ∧
    1000 < countInWindow 3000600 3600000
      (redditCompletions (initialRedditRateState 0) redditTraceC1) := by
  constructor
  · unfold redditTraceC1
    simp only [monoFrom_append]
    decide
  · unfold redditTraceC1
    have e0 : redditRateRun (initialRedditRateState 0) c1Seg0 = ⟨24, 25, 3000600, 0, some 3014400⟩ := by decide
    have e1 : redditRateRun (⟨24, 25, 3000600, 0, some 3014400⟩ : RedditRateState) c1Seg1 = ⟨49, 50, 3000600, 0, some 3029400⟩ := by decide
    have e2 : redditRateRun (⟨49, 50, 3000600, 0, some 3029400⟩ : RedditRateState) c1Seg2 = ⟨74, 75, 3000600, 0, some 3044400⟩ := by decide
    have e3 : redditRateRun (⟨74, 75, 3000600, 0, some 3044400⟩ : RedditRateState) c1Seg3 = ⟨99, 100, 3000600, 0, some 3059400⟩ := by decide
    have e4 : redditRateRun (⟨99, 100, 3000600, 0, some 3059400⟩ : RedditRateState) c1Seg4 = ⟨24, 125, 3060600, 0, some 3074400⟩ := by decide
    have e5 : redditRateRun (⟨24, 125, 3060600, 0, some 3074400⟩ : RedditRateState) c1Seg5 = ⟨49, 150, 3060600, 0, some 3089400⟩ := by decide
    have e6 : redditRateRun (⟨49, 150, 3060600, 0, some 3089400⟩ : RedditRateState) c1Seg6 = ⟨74, 175, 3060600, 0, some 3104400⟩ := by decide
    have e7 : redditRateRun (⟨74, 175, 3060600, 0, some 3104400⟩ : RedditRateState) c1Seg7 = ⟨99, 200, 3060600, 0, some 3119400⟩ := by decide
    have e8 : redditRateRun (⟨99, 200, 3060600, 0, some 3119400⟩ : RedditRateState) c1Seg8 = ⟨24, 225, 3120600, 0, some 3134400⟩ := by decide
    have e9 : redditRateRun (⟨24, 225, 3120600, 0, some 3134400⟩ : RedditRateState) c1Seg9 = ⟨49, 250, 3120600, 0, some 3149400⟩ := by decide
    have e10 : redditRateRun (⟨49, 250, 3120600, 0, some 3149400⟩ : RedditRateState) c1Seg10 = ⟨74, 275, 3120600, 0, some 3164400⟩ := by decide
    have e11 : redditRateRun (⟨74, 275, 3120600, 0, some 3164400⟩ : RedditRateState) c1Seg11 = ⟨99, 300, 3120600, 0, some 3179400⟩ := by decide
    have e12 : redditRateRun (⟨99, 300, 3120600, 0, some 3179400⟩ : RedditRateState) c1Seg12 = ⟨24, 325, 3180600, 0, some 3194400⟩ := by decide
    have e13 : redditRateRun (⟨24, 325, 3180600, 0, some 3194400⟩ : RedditRateState) c1Seg13 = ⟨49, 350, 3180600, 0, some 3209400⟩ := by decide
    have e14 : redditRateRun (⟨49, 350, 3180600, 0, some 3209400⟩ : RedditRateState) c1Seg14 = ⟨74, 375, 3180600, 0, some 3224400⟩ := by decide
    have e15 : redditRateRun (⟨74, 375, 3180600, 0, some 3224400⟩ : RedditRateState) c1Seg15 = ⟨99, 400, 3180600, 0, some 3239400⟩ := by decide
    have e16 : redditRateRun (⟨99, 400, 3180600, 0, some 3239400⟩ : RedditRateState) c1Seg16 = ⟨24, 425, 3240600, 0, some 3254400⟩ := by decide
    have e17 : redditRateRun (⟨24, 425, 3240600, 0, some 3254400⟩ : RedditRateState) c1Seg17 = ⟨49, 450, 3240600, 0, some 3269400⟩ := by decide
    have e18 : redditRateRun (⟨49, 450, 3240600, 0, some 3269400⟩ : RedditRateState) c1Seg18 = ⟨74, 475, 3240600, 0, some 3284400⟩ := by decide
    have e19 : redditRateRun (⟨74, 475, 3240600, 0, some 3284400⟩ : RedditRateState) c1Seg19 = ⟨99, 500, 3240600, 0, some 3299400⟩ := by decide
    have e20 : redditRateRun (⟨99, 500, 3240600, 0, some 3299400⟩ : RedditRateState) c1Seg20 = ⟨24, 525, 3300600, 0, some 3314400⟩ := by decide
    have e21 : redditRateRun (⟨24, 525, 3300600, 0, some 3314400⟩ : RedditRateState) c1Seg21 = ⟨49, 550, 3300600, 0, some 3329400⟩ := by decide
    have e22 : redditRateRun (⟨49, 550, 3300600, 0, some 3329400⟩ : RedditRateState) c1Seg22 = ⟨74, 575, 3300600, 0, some 3344400⟩ := by decide
    have e23 : redditRateRun (⟨74, 575, 3300600, 0, some 3344400⟩ : RedditRateState) c1Seg23 = ⟨99, 600, 3300600, 0, some 3359400⟩ := by decide
    have e24 : redditRateRun (⟨99, 600, 3300600, 0, some 3359400⟩ : RedditRateState) c1Seg24 = ⟨24, 625, 3360600, 0, some 3374400⟩ := by decide
    have e25 : redditRateRun (⟨24, 625, 3360600, 0, some 3374400⟩ : RedditRateState) c1Seg25 = ⟨49, 650, 3360600, 0, some 3389400⟩ := by decide
    have e26 : redditRateRun (⟨49, 650, 3360600, 0, some 3389400⟩ : RedditRateState) c1Seg26 = ⟨74, 675, 3360600, 0, some 3404400⟩ := by decide
    have e27 : redditRateRun (⟨74, 675, 3360600, 0, some 3404400⟩ : RedditRateState) c1Seg27 = ⟨99, 700, 3360600, 0, some 3419400⟩ := by decide
    have e28 : redditRateRun (⟨99, 700, 3360600, 0, some 3419400⟩ : RedditRateState) c1Seg28 = ⟨24, 725, 3420600, 0, some 3434400⟩ := by decide
    have e29 : redditRateRun (⟨24, 725, 3420600, 0, some 3434400⟩ : RedditRateState) c1Seg29 = ⟨49, 750, 3420600, 0, some 3449400⟩ := by decide
    have e30 : redditRateRun (⟨49, 750, 3420600, 0, some 3449400⟩ : RedditRateState) c1Seg30 = ⟨74, 775, 3420600, 0, some 3464400⟩ := by decide
    have e31 : redditRateRun (⟨74, 775, 3420600, 0, some 3464400⟩ : RedditRateState) c1Seg31 = ⟨99, 800, 3420600, 0, some 3479400⟩ := by decide
    have e32 : redditRateRun (⟨99, 800, 3420600, 0, some 3479400⟩ : RedditRateState) c1Seg32 = ⟨24, 825, 3480600, 0, some 3494400⟩ := by decide
    have e33 : redditRateRun (⟨24, 825, 3480600, 0, some 3494400⟩ : RedditRateState) c1Seg33 = ⟨49, 850, 3480600, 0, some 3509400⟩ := by decide
    have e34 : redditRateRun (⟨49, 850, 3480600, 0, some 3509400⟩ : RedditRateState) c1Seg34 = ⟨74, 875, 3480600, 0, some 3524400⟩ := by decide
    have e35 : redditRateRun (⟨74, 875, 3480600, 0, some 3524400⟩ : RedditRateState) c1Seg35 = ⟨99, 900, 3480600, 0, some 3539400⟩ := by decide
    have e36 : redditRateRun (⟨99, 900, 3480600, 0, some 3539400⟩ : RedditRateState) c1Seg36 = ⟨24, 925, 3540600, 0, some 3554400⟩ := by decide
    have e37 : redditRateRun (⟨24, 925, 3540600, 0, some 3554400⟩ : RedditRateState) c1Seg37 = ⟨49, 950, 3540600, 0, some 3569400⟩ := by decide
    have e38 : redditRateRun (⟨49, 950, 3540600, 0, some 3569400⟩ : RedditRateState) c1Seg38 = ⟨74, 975, 3540600, 0, some 3584400⟩ := by decide
    have e39 : redditRateRun (⟨74, 975, 3540600, 0, some 3584400⟩ : RedditRateState) c1Seg39 = ⟨99, 1000, 3540600, 0, some 3599400⟩ := by decide
    have e40 : redditRateRun (⟨99, 1000, 3540600, 0, some 3599400⟩ : RedditRateState) c1Seg40 = ⟨1, 2, 3600600, 3600000, some 3600600⟩ := by decide
    rw [redditCompletions_append, e0, redditCompletions_append, e1, redditCompletions_append, e2, redditCompletions_append, e3, redditCompletions_append, e4, redditCompletions_append, e5, redditCompletions_append, e6, redditCompletions_append, e7, redditCompletions_append, e8, redditCompletions_append, e9, redditCompletions_append, e10, redditCompletions_append, e11, redditCompletions_append, e12, redditCompletions_append, e13, redditCompletions_append, e14, redditCompletions_append, e15, redditCompletions_append, e16, redditCompletions_append, e17, redditCompletions_append, e18, redditCompletions_append, e19, redditCompletions_append, e20, redditCompletions_append, e21, redditCompletions_append, e22, redditCompletions_append, e23, redditCompletions_append, e24, redditCompletions_append, e25, redditCompletions_append, e26, redditCompletions_append, e27, redditCompletions_append, e28, redditCompletions_append, e29, redditCompletions_append, e30, redditCompletions_append, e31, redditCompletions_append, e32, redditCompletions_append, e33, redditCompletions_append, e34, redditCompletions_append, e35, redditCompletions_append, e36, redditCompletions_append, e37, redditCompletions_append, e38, redditCompletions_append, e39]
    simp only [countInWindow_append]
    decide

set_option maxRecDepth 8000 in
/-- C2, counterexample.  The claim asserts that a call suspended by an
exhausted window waits for the smallest pending time-until-rollover.  Driving
a fresh limiter through the monotone call sequence `redditTraceC2` leaves
both windows at their caps (100 and 1000) with the hour window rolling over
in 300 ms and the minute window in 600 ms; the next call at 3599700 ms
nevertheless waits the full 600 ms of the minute window, not the smallest
pending 300 ms. -/
theorem C2_smallest_pending_counterexample :
    monoFrom 0 redditTraceC2 = true ∧
    redditRateRun (initialRedditRateState 0) redditTraceC2 =
      ⟨100, 1000, 3540300, 0, some 3599700⟩ ∧
    100 ≤ (redditRollover ⟨100, 1000, 3540300, 0, some 3599700⟩ 3599700).requestsThisMinute ∧
    1000 ≤ (redditRollover ⟨100, 1000, 3540300, 0, some 3599700⟩ 3599700).requestsThisHour ∧
    reddit_wait_for_rate_limit ⟨100, 1000, 3540300, 0, some 3599700⟩ 3599700 =
      (⟨100, 1000, 3540300, 0, some 3599700⟩, .waitMinuteReset 600) ∧
    redditPendingHour ⟨100, 1000, 3540300, 0, some 3599700⟩ 3599700 = 300 ∧
    (300 : Int) < 600 := by
  refine ⟨?_, ?_, by decide, by decide, by decide, by decide, by decide⟩
  · unfold redditTraceC2
    simp only [monoFrom_append]
    decide
  · unfold redditTraceC2
    have e0 : redditRateRun (initialRedditRateState 0) c2Seg0 = ⟨25, 25, 0, 0, some 14400⟩ := by decide
    have e1 : redditRateRun (⟨25, 25, 0, 0, some 14400⟩ : RedditRateState) c2Seg1 = ⟨50, 50, 0, 0, some 29400⟩ := by decide
    have e2 : redditRateRun (⟨50, 50, 0, 0, some 29400⟩ : RedditRateState) c2Seg2 = ⟨75, 75, 0, 0, some 44400⟩ := by decide
    have e3 : redditRateRun (⟨75, 75, 0, 0, some 44400⟩ : RedditRateState) c2Seg3 = ⟨100, 100, 0, 0, some 59400⟩ := by decide
    have e4 : redditRateRun (⟨100, 100, 0, 0, some 59400⟩ : RedditRateState) c2Seg4 = ⟨25, 125, 60000, 0, some 74400⟩ := by decide
    have e5 : redditRateRun (⟨25, 125, 60000, 0, some 74400⟩ : RedditRateState) c2Seg5 = ⟨50, 150, 60000, 0, some 89400⟩ := by decide
    have e6 : redditRateRun (⟨50, 150, 60000, 0, some 89400⟩ : RedditRateState) c2Seg6 = ⟨75, 175, 60000, 0, some 104400⟩ := by decide
    have e7 : redditRateRun (⟨75, 175, 60000, 0, some 104400⟩ : RedditRateState) c2Seg7 = ⟨100, 200, 60000, 0, some 119400⟩ := by decide
    have e8 : redditRateRun (⟨100, 200, 60000, 0, some 119400⟩ : RedditRateState) c2Seg8 = ⟨25, 225, 120000, 0, some 134400⟩ := by decide
    have e9 : redditRateRun (⟨25, 225, 120000, 0, some 134400⟩ : RedditRateState) c2Seg9 = ⟨50, 250, 120000, 0, some 149400⟩ := by decide
    have e10 : redditRateRun (⟨50, 250, 120000, 0, some 149400⟩ : RedditRateState) c2Seg10 = ⟨75, 275, 120000, 0, some 164400⟩ := by decide
    have e11 : redditRateRun (⟨75, 275, 120000, 0, some 164400⟩ : RedditRateState) c2Seg11 = ⟨100, 300, 120000, 0, some 179400⟩ := by decide
    have e12 : redditRateRun (⟨100, 300, 120000, 0, some 179400⟩ : RedditRateState) c2Seg12 = ⟨25, 325, 180000, 0, some 194400⟩ := by decide
    have e13 : redditRateRun (⟨25, 325, 180000, 0, some 194400⟩ : RedditRateState) c2Seg13 = ⟨50, 350, 180000, 0, some 209400⟩ := by decide
    have e14 : redditRateRun (⟨50, 350, 180000, 0, some 209400⟩ : RedditRateState) c2Seg14 = ⟨75, 375, 180000, 0, some 224400⟩ := by decide
    have e15 : redditRateRun (⟨75, 375, 180000, 0, some 224400⟩ : RedditRateState) c2Seg15 = ⟨100, 400, 180000, 0, some 239400⟩ := by decide
    have e16 : redditRateRun (⟨100, 400, 180000, 0, some 239400⟩ : RedditRateState) c2Seg16 = ⟨25, 425, 240000, 0, some 254400⟩ := by decide
    have e17 : redditRateRun (⟨25, 425, 240000, 0, some 254400⟩ : RedditRateState) c2Seg17 = ⟨50, 450, 240000, 0, some 269400⟩ := by decide
    have e18 : redditRateRun (⟨50, 450, 240000, 0, some 269400⟩ : RedditRateState) c2Seg18 = ⟨75, 475, 240000, 0, some 284400⟩ := by decide
    have e19 : redditRateRun (⟨75, 475, 240000, 0, some 284400⟩ : RedditRateState) c2Seg19 = ⟨100, 500, 240000, 0, some 299400⟩ := by decide
    have e20 : redditRateRun (⟨100, 500, 240000, 0, some 299400⟩ : RedditRateState) c2Seg20 = ⟨25, 525, 300000, 0, some 314400⟩ := by decide
    have e21 : redditRateRun (⟨25, 525, 300000, 0, some 314400⟩ : RedditRateState) c2Seg21 = ⟨50, 550, 300000, 0, some 329400⟩ := by decide
    have e22 : redditRateRun (⟨50, 550, 300000, 0, some 329400⟩ : RedditRateState) c2Seg22 = ⟨75, 575, 300000, 0, some 344400⟩ := by decide
    have e23 : redditRateRun (⟨75, 575, 300000, 0, some 344400⟩ : RedditRateState) c2Seg23 = ⟨100, 600, 300000, 0, some 359400⟩ := by decide
    have e24 : redditRateRun (⟨100, 600, 300000, 0, some 359400⟩ : RedditRateState) c2Seg24 = ⟨25, 625, 360000, 0, some 374400⟩ := by decide
    have e25 : redditRateRun (⟨25, 625, 360000, 0, some 374400⟩ : RedditRateState) c2Seg25 = ⟨50, 650, 360000, 0, some 389400⟩ := by decide
    have e26 : redditRateRun (⟨50, 650, 360000, 0, some 389400⟩ : RedditRateState) c2Seg26 = ⟨75, 675, 360000, 0, some 404400⟩ := by decide
    have e27 : redditRateRun (⟨75, 675, 360000, 0, some 404400⟩ : RedditRateState) c2Seg27 = ⟨100, 700, 360000, 0, some 419400⟩ := by decide
    have e28 : redditRateRun (⟨100, 700, 360000, 0, some 419400⟩ : RedditRateState) c2Seg28 = ⟨25, 725, 420000, 0, some 434400⟩ := by decide
    have e29 : redditRateRun (⟨25, 725, 420000, 0, some 434400⟩ : RedditRateState) c2Seg29 = ⟨50, 750, 420000, 0, some 449400⟩ := by decide
    have e30 : redditRateRun (⟨50, 750, 420000, 0, some 449400⟩ : RedditRateState) c2Seg30 = ⟨75, 775, 420000, 0, some 464400⟩ := by decide
    have e31 : redditRateRun (⟨75, 775, 420000, 0, some 464400⟩ : RedditRateState) c2Seg31 = ⟨100, 800, 420000, 0, some 479400⟩ := by decide
    have e32 : redditRateRun (⟨100, 800, 420000, 0, some 479400⟩ : RedditRateState) c2Seg32 = ⟨25, 825, 480000, 0, some 494400⟩ := by decide
    have e33 : redditRateRun (⟨25, 825, 480000, 0, some 494400⟩ : RedditRateState) c2Seg33 = ⟨50, 850, 480000, 0, some 509400⟩ := by decide
    have e34 : redditRateRun (⟨50, 850, 480000, 0, some 509400⟩ : RedditRateState) c2Seg34 = ⟨75, 875, 480000, 0, some 524400⟩ := by decide
    have e35 : redditRateRun (⟨75, 875, 480000, 0, some 524400⟩ : RedditRateState) c2Seg35 = ⟨100, 900, 480000, 0, some 539400⟩ := by decide
    have e36 : redditRateRun (⟨100, 900, 480000, 0, some 539400⟩ : RedditRateState) c2Seg36 = ⟨25, 925, 3540300, 0, some 3554700⟩ := by decide
    have e37 : redditRateRun (⟨25, 925, 3540300, 0, some 3554700⟩ : RedditRateState) c2Seg37 = ⟨50, 950, 3540300, 0, some 3569700⟩ := by decide
    have e38 : redditRateRun (⟨50, 950, 3540300, 0, some 3569700⟩ : RedditRateState) c2Seg38 = ⟨75, 975, 3540300, 0, some 3584700⟩ := by decide
    have e39 : redditRateRun (⟨75, 975, 3540300, 0, some 3584700⟩ : RedditRateState) c2Seg39 = ⟨100, 1000, 3540300, 0, some 3599700⟩ := by decide
    rw [redditRateRun_append, e0, redditRateRun_append, e1, redditRateRun_append, e2, redditRateRun_append, e3, redditRateRun_append, e4, redditRateRun_append, e5, redditRateRun_append, e6, redditRateRun_append, e7, redditRateRun_append, e8, redditRateRun_append, e9, redditRateRun_append, e10, redditRateRun_append, e11, redditRateRun_append, e12, redditRateRun_append, e13, redditRateRun_append, e14, redditRateRun_append, e15, redditRateRun_append, e16, redditRateRun_append, e17, redditRateRun_append, e18, redditRateRun_append, e19, redditRateRun_append, e20, redditRateRun_append, e21, redditRateRun_append, e22, redditRateRun_append, e23, redditRateRun_append, e24, redditRateRun_append, e25, redditRateRun_append, e26, redditRateRun_append, e27, redditRateRun_append, e28, redditRateRun_append, e29, redditRateRun_append, e30, redditRateRun_append, e31, redditRateRun_append, e32, redditRateRun_append, e33, redditRateRun_append, e34, redditRateRun_append, e35, redditRateRun_append, e36, redditRateRun_append, e37, redditRateRun_append, e38, e39]


/-- C3, counterexample.  The claim requires the title-blank-line-body
concatenation only when both parts are present and non-empty, and otherwise
content equal to whichever part is present.  At title `some ""` and body
`some "B"` the code produces the concatenation of the empty title, a blank
line and the body, which differs from the title, from the body and from the
empty string, so no reading of the claim matches it. -/
theorem C3_empty_title_counterexample :
    assembleContent (some "") (some "B") = "\n\nB" ∧
    ¬ ("\n\nB" = "" ∨ "\n\nB" = "B") := by
  constructor
  · rfl
  · decide

/-- C3, amended.  The concatenation case of the content assembly tests only
the body for non-emptiness (the title may be empty); with that one change the
claim holds: title and body joined by a blank line when both present and the
body non-empty, otherwise the title when present, otherwise the body when
present, empty when both absent — and the three worked examples of the claim
hold as stated. -/
theorem C3_content_assembly :
    (∀ title body, assembleContent title body = contentAssemblySpec title body) ∧
    assembleContent (some "A") (some "B") = "A" ++ "\n\n" ++ "B" ∧
    assembleContent (some "A") (some "") = "A" ∧
    assembleContent none (some "B") = "B" := by
  refine ⟨?_, rfl, rfl, rfl⟩
  intro title body
  rcases title with _ | t <;> rcases body with _ | b
  · rfl
  · simp [assembleContent, contentAssemblySpec]
  · simp [assembleContent, contentAssemblySpec]
  · by_cases hb : b = "" <;> simp [assembleContent, contentAssemblySpec, hb]

/-- C4: every SocialPost built by the Reddit converter
(`convert_post_to_social_post`) or the Twitter converter
(`convert_tweet_to_post`) — the two functions that construct posts returned
by connector operations — has `privacy_flags.anonymized = true`, and its
`created_at` field always carries a value: the source timestamp when chrono
can represent respectively parse it, and the ingestion time `ingestNow`
otherwise (`Option.getD` makes the fallback explicit; an out-of-range
`created_utc` or an absent or unparseable `created_at` string yields
`ingestNow`). -/
theorem C4_anonymized_and_created_at :
    (∀ (cfg : PrivacyConfig) (ingestNow : Int) (post : RedditPost),
      (convert_post_to_social_post cfg ingestNow post).privacy_flags.anonymized = true ∧
      (convert_post_to_social_post cfg ingestNow post).created_at =
        (chronoTimestampSingle post.created_utc).getD ingestNow) ∧
    (∀ (cfg : PrivacyConfig) (parseRfc3339 : String → Option Int) (ingestNow : Int)
        (tweet : TwitterTweet) (users : Option (List TwitterUser))
        (media : Option (List TwitterMedia)) (places : Option (List TwitterPlace)),
      (convert_tweet_to_post cfg parseRfc3339 ingestNow tweet users media
        places).privacy_flags.anonymized = true ∧
      (convert_tweet_to_post cfg parseRfc3339 ingestNow tweet users media
        places).created_at = (tweet.created_at.bind parseRfc3339).getD ingestNow) := by
  constructor
  · intro cfg ingestNow post
    exact ⟨rfl, rfl⟩
  · intro cfg parseRfc3339 ingestNow tweet users media places
    exact ⟨rfl, rfl⟩

/-- C5: both `get_post_by_id` implementations answer an upstream 404 with a
successful empty result, and any other non-2xx status with `ApiError`
carrying that status code and the response body text. -/
theorem C5_http_status_dispatch :
    (∀ (cfg : PrivacyConfig) (ingestNow : Int) (parsePost : Json → Option RedditPost)
        (status : Nat) (body : String) (listing : Option RedditListing),
      (status = 404 →
        reddit_get_post_by_id_response cfg ingestNow parsePost status body listing =
          .ok none) ∧
      (¬ isSuccessStatus status → status ≠ 404 →
        reddit_get_post_by_id_response cfg ingestNow parsePost status body listing =
          .error (.apiError status ("Reddit API error: " ++ body)))) ∧
    (∀ (cfg : PrivacyConfig) (parseRfc3339 : String → Option Int) (ingestNow : Int)
        (parseTweet : Json → Option TwitterTweet) (status : Nat) (body : String)
        (envelope : Option TwitterLookupEnvelope),
      (status = 404 →
        twitter_get_post_by_id_response cfg parseRfc3339 ingestNow parseTweet status
          body envelope = .ok none) ∧
      (¬ isSuccessStatus status → status ≠ 404 →
        twitter_get_post_by_id_response cfg parseRfc3339 ingestNow parseTweet status
          body envelope =
          .error (.apiError status ("Twitter API error: " ++ body)))) := by
  constructor
  · intro cfg ingestNow parsePost status body listing
    constructor
    · intro h
      simp [reddit_get_post_by_id_response, h]
    · intro h1 h2
      simp [reddit_get_post_by_id_response, h1, h2]
  · intro cfg parseRfc3339 ingestNow parseTweet status body envelope
    constructor
    · intro h
      simp [twitter_get_post_by_id_response, h]
    · intro h1 h2
      simp [twitter_get_post_by_id_response, h1, h2]

/-- Witness for `C5_http_status_dispatch`: a 404 yields a successful `none`
and a 500 with body text yields `ApiError 500` carrying that text, on both
connectors. -/
theorem C5_http_status_dispatch_witness :
    reddit_get_post_by_id_response ⟨"s", 1, "p", true⟩ 0 (fun _ => none) 404 "" none =
      .ok none ∧
    reddit_get_post_by_id_response ⟨"s", 1, "p", true⟩ 0 (fun _ => none) 500 "boom" none =
      .error (.apiError 500 ("Reddit API error: " ++ "boom")) ∧
    twitter_get_post_by_id_response ⟨"s", 1, "p", true⟩ (fun _ => none) 0
      (fun _ => none) 404 "" none = .ok none ∧
    twitter_get_post_by_id_response ⟨"s", 1, "p", true⟩ (fun _ => none) 0
      (fun _ => none) 500 "boom" none =
      .error (.apiError 500 ("Twitter API error: " ++ "boom")) := by
  refine ⟨(C5_http_status_dispatch.1 _ _ _ _ _ _).1 rfl,
    (C5_http_status_dispatch.1 _ _ _ _ _ _).2 (by decide) (by decide),
    (C5_http_status_dispatch.2 _ _ _ _ _ _ _).1 rfl,
    (C5_http_status_dispatch.2 _ _ _ _ _ _ _).2 (by decide) (by decide)⟩

/-- C6: the connectors of platforms without search support return the
`ConfigError` variant from `search_posts` for every input — never a success
and never another error variant — including for an empty query. -/
theorem C6_unsupported_search_returns_config_error (params : SearchParams) :
    instagram_search_posts params =
      .error (.configError "Instagram Basic Display API doesn\x27t support public search") ∧
    telegram_search_posts params =
      .error (.configError "Telegram Bot API doesn\x27t support search functionality") :=
  ⟨rfl, rfl⟩

/-- C7: the token cache of `RedditConnector::get_access_token`.  A stored
token that has not reached its expiry is returned with zero token-endpoint
requests and unchanged state.  On a cache miss exactly one client-credentials
request happens: a parsed 2xx response stores the token with expiry
`now + expires_in - 300` seconds (so `expires_in = 3600` stores `now + 3300`),
and any non-2xx response maps to `AuthenticationFailed` carrying the body
text.  The final conjunct is the cached-window consequence: a token stored
with expiry `now2 + 3300` is served from cache at any time before
`now2 + 3300` and triggers exactly one new fetch from then on. -/
theorem C7_token_cache_lifecycle (st : TokenState) (now1 now2 : Int) :
    (∀ fetch tok exp, st.access_token = some tok → st.token_expires_at = some exp →
      now1 < exp → get_access_token st now1 now2 fetch = (.ok tok, st, 0)) ∧
    (∀ status body tr,
      (∀ tok exp, st.access_token = some tok → st.token_expires_at = some exp →
        exp ≤ now1) →
      isSuccessStatus status →
      get_access_token st now1 now2 (.http status body (some tr)) =
        (.ok tr.access_token,
         ⟨some tr.access_token, some (now2 + (tr.expires_in : Int) - 300)⟩, 1)) ∧
    (∀ status body json,
      (∀ tok exp, st.access_token = some tok → st.token_expires_at = some exp →
        exp ≤ now1) →
      ¬ isSuccessStatus status →
      get_access_token st now1 now2 (.http status body json) =
        (.error (.authenticationFailed ("OAuth2 token request failed: " ++ body)), st, 1)) ∧
    (∀ (tok : String) (u u2 : Int) (fetch : TokenFetchOutcome),
      (u < now2 + 3300 →
        get_access_token ⟨some tok, some (now2 + 3300)⟩ u u2 fetch =
          (.ok tok, ⟨some tok, some (now2 + 3300)⟩, 0)) ∧
      (now2 + 3300 ≤ u →
        (get_access_token ⟨some tok, some (now2 + 3300)⟩ u u2 fetch).2.2 = 1)) := by
  refine ⟨?_, ?_, ?_, ?_⟩
  · intro fetch tok exp h1 h2 hlt
    simp [get_access_token, h1, h2, hlt]
  · intro status body tr hmiss hok
    rcases ha : st.access_token with _ | tok <;> rcases he : st.token_expires_at with _ | exp <;>
      simp [get_access_token, ha, he, hok]
    exact hmiss tok exp ha he
  · intro status body json hmiss hbad
    rcases ha : st.access_token with _ | tok <;> rcases he : st.token_expires_at with _ | exp <;>
      simp [get_access_token, ha, he, hbad]
    exact hmiss tok exp ha he
  · intro tok u u2 fetch
    constructor
    · intro hu
      simp [get_access_token, hu]
    · intro hu
      rcases fetch with _ | ⟨status, body, json⟩
      · simp [get_access_token, if_neg (by omega : ¬ u < now2 + 3300)]
      · by_cases hok : isSuccessStatus status
        · rcases json with _ | tr <;>
            simp [get_access_token, if_neg (by omega : ¬ u < now2 + 3300), hok]
        · simp [get_access_token, if_neg (by omega : ¬ u < now2 + 3300), hok]

/-- Witness for `C7_token_cache_lifecycle`: a token stored with expiry 100 is
served from cache at time 50; an empty cache fetching a 200 response with
`expires_in = 3600` at time 0 stores expiry 3300; an empty cache receiving a
401 with body text maps it to `AuthenticationFailed`. -/
theorem C7_token_cache_lifecycle_witness :
    get_access_token ⟨some "t", some 100⟩ 50 60 .netErr = (.ok "t", ⟨some "t", some 100⟩, 0) ∧
    get_access_token ⟨none, none⟩ 0 0 (.http 200 "" (some ⟨"t2", "bearer", 3600, "read"⟩)) =
      (.ok "t2", ⟨some "t2", some 3300⟩, 1) ∧
    get_access_token ⟨none, none⟩ 0 0 (.http 401 "denied" none) =
      (.error (.authenticationFailed ("OAuth2 token request failed: " ++ "denied")),
       ⟨none, none⟩, 1) := by
  refine ⟨(C7_token_cache_lifecycle ⟨some "t", some 100⟩ 50 60).1 .netErr "t" 100 rfl rfl
      (by decide), ?_, ?_⟩
  · have h := (C7_token_cache_lifecycle ⟨none, none⟩ 0 0).2.1 200 ""
      ⟨"t2", "bearer", 3600, "read"⟩ (by intro tok exp h _; cases h) (by decide)
    simpa using h
  · exact (C7_token_cache_lifecycle ⟨none, none⟩ 0 0).2.2.1 401 "denied" none
      (by intro tok exp h _; cases h) (by decide)

/-- C8: the Twitter reactive limiter.  When the recorded remaining quota is 0
and the call time is before the recorded reset time, the call sleeps exactly
`resetTime - now1`, waking precisely at `resetTime` — hence at least until the
reset and no later than the reset plus any non-negative check interval (the
code has no polling loop; it computes the exact remaining duration once).
Independently of the remaining quota, when less than 1000 ms have elapsed
since the last request, the spacing sleep ends exactly at `last + 1000`, and
no spacing sleep happens once a full second has elapsed. -/
theorem C8_reactive_limiter_wait (st : TwitterRateState) (now1 now2 : Int) :
    (st.remaining = 0 → now1 < st.resetTime →
      twitter_wait_for_rate_limit st now1 now2 =
        .waited (st.resetTime - now1) (twitterSpacingWait st now2) ∧
      now1 + (st.resetTime - now1) = st.resetTime) ∧
    (∀ last, st.lastRequest = some last → now2 - last < 1000 →
      now2 + twitterSpacingWait st now2 = last + 1000) ∧
    (∀ last, st.lastRequest = some last → 1000 ≤ now2 - last →
      twitterSpacingWait st now2 = 0) := by
  refine ⟨?_, ?_, ?_⟩
  · intro h0 hlt
    constructor
    · have hd : ¬ st.resetTime - now1 < 0 := by omega
      simp [twitter_wait_for_rate_limit, h0, hlt, hd]
    · omega
  · intro last hl hlt
    simp only [twitterSpacingWait, hl]
    rw [if_pos hlt, if_pos (by omega)]
    omega
  · intro last hl hge
    simp only [twitterSpacingWait, hl]
    rw [if_neg (by omega)]

/-- Witness for `C8_reactive_limiter_wait`: with remaining 0, reset at
5000 ms and a call at 1000 ms, the call sleeps 4000 ms and wakes exactly at
the reset; with a last request at 800 ms and the spacing check at 1000 ms,
the spacing sleep ends exactly at 1800 ms. -/
theorem C8_reactive_limiter_wait_witness :
    (twitter_wait_for_rate_limit ⟨0, 300, 5000, some 800⟩ 1000 1000 =
      .waited (5000 - 1000) (twitterSpacingWait ⟨0, 300, 5000, some 800⟩ 1000) ∧
     (1000 : Int) + (5000 - 1000) = 5000) ∧
    (1000 : Int) + twitterSpacingWait ⟨0, 300, 5000, some 800⟩ 1000 = 800 + 1000 := by
  exact ⟨(C8_reactive_limiter_wait ⟨0, 300, 5000, some 800⟩ 1000 1000).1 rfl (by decide),
    (C8_reactive_limiter_wait ⟨0, 300, 5000, some 800⟩ 1000 1000).2.1 800 rfl (by decide)⟩

/-- C9: in the Reddit batch conversions, a single child whose payload fails
to parse (or whose kind is not `t3`) is skipped while every other well-formed
child is still converted, in order; and after a successful HTTP response and
envelope parse, both `search_posts` and `get_user_posts` return a success
carrying exactly those conversions — a malformed individual item can never
fail the whole batch. -/
theorem C9_batch_malformed_item_skipped :
    (∀ (cfg : PrivacyConfig) (ingestNow : Int) (parsePost : Json → Option RedditPost)
        (xs : List RedditThing) (bad : RedditThing) (ys : List RedditThing),
      parsePost bad.data = none →
      convertChildren cfg ingestNow parsePost (xs ++ bad :: ys) =
        convertChildren cfg ingestNow parsePost xs ++
          convertChildren cfg ingestNow parsePost ys) ∧
    (∀ (cfg : PrivacyConfig) (ingestNow : Int) (parsePost : Json → Option RedditPost)
        (status : Nat) (body : String) (listing : RedditListing),
      isSuccessStatus status →
      reddit_search_posts_response cfg ingestNow parsePost status body (some listing) =
        .ok (convertChildren cfg ingestNow parsePost listing.data.children) ∧
      reddit_get_user_posts_response cfg ingestNow parsePost status body (some listing) =
        .ok (convertChildren cfg ingestNow parsePost listing.data.children)) := by
  constructor
  · intro cfg ingestNow parsePost xs bad ys hbad
    induction xs with
    | nil =>
      by_cases hk : bad.kind = "t3" <;> simp [convertChildren, hk, hbad]
    | cons x xs ih =>
      by_cases hk : x.kind = "t3"
      · rcases hp : parsePost x.data with _ | rp <;>
          simp [convertChildren, hk, hp, ih]
      · simp [convertChildren, hk, ih]
  · intro cfg ingestNow parsePost status body listing h
    constructor <;>
      simp [reddit_search_posts_response, reddit_get_user_posts_response, h]

/-- Witness for `C9_batch_malformed_item_skipped`: with a parser that fails
exactly on `Json.null` payloads, a batch holding one malformed item between
two well-formed items converts to the two well-formed conversions, and a
search response carrying that batch succeeds. -/
theorem C9_batch_malformed_item_skipped_witness :
    convertChildren ⟨"s", 1, "p", true⟩ 0
        (fun j => match j with | Json.null => none | _ => some sampleRedditPost)
        ([⟨"t3", Json.bool true⟩] ++ ⟨"t3", Json.null⟩ :: [⟨"t3", Json.bool false⟩]) =
      convertChildren ⟨"s", 1, "p", true⟩ 0
        (fun j => match j with | Json.null => none | _ => some sampleRedditPost)
        [⟨"t3", Json.bool true⟩] ++
      convertChildren ⟨"s", 1, "p", true⟩ 0
        (fun j => match j with | Json.null => none | _ => some sampleRedditPost)
        [⟨"t3", Json.bool false⟩] ∧
    reddit_search_posts_response ⟨"s", 1, "p", true⟩ 0
        (fun j => match j with | Json.null => none | _ => some sampleRedditPost)
        200 "" (some ⟨"Listing", ⟨none, none, [⟨"t3", Json.null⟩], none, none⟩⟩) =
      .ok (convertChildren ⟨"s", 1, "p", true⟩ 0
        (fun j => match j with | Json.null => none | _ => some sampleRedditPost)
        [⟨"t3", Json.null⟩]) := by
  exact ⟨C9_batch_malformed_item_skipped.1 ⟨"s", 1, "p", true⟩ 0 _
      [⟨"t3", Json.bool true⟩] ⟨"t3", Json.null⟩ [⟨"t3", Json.bool false⟩] rfl,
    (C9_batch_malformed_item_skipped.2 ⟨"s", 1, "p", true⟩ 0 _ 200 ""
      ⟨"Listing", ⟨none, none, [⟨"t3", Json.null⟩], none, none⟩⟩ (by decide)).1⟩

/-- C10: the query parameter list of the Twitter search URL carries
`max_results = min(params.max_results, 100)` with default 10, the Reddit one
carries `limit = min(params.max_results, 100)` with default 25, and both
values are at most 100, so no single search request asks the upstream for
more than 100 items. -/
theorem C10_search_request_size_clamped (params : SearchParams)
    (fmtRfc3339 : Int → String) :
    lookupParam (twitter_search_query_params fmtRfc3339 params) "max_results" =
      some (toString (min (params.max_results.getD 10) 100)) ∧
    min (params.max_results.getD 10) 100 ≤ 100 ∧
    lookupParam (reddit_search_query_params params) "limit" =
      some (toString (min (params.max_results.getD 25) 100)) ∧
    min (params.max_results.getD 25) 100 ≤ 100 :=
  ⟨rfl, Nat.min_le_right _ _, rfl, Nat.min_le_right _ _⟩
